import Mathlib

/-!
Verification development for a Game Boy (DMG) emulator core.

The Rust source is embedded shallowly: every `u8`/`u16` value is a `Nat`,
truncated (`% 256`, `% 65536`, bit masks) exactly at the points where the
source's integer types truncate or where the source masks explicitly.
Byte arrays (`main_memory`, `vram`, `oam`, the framebuffer, ...) are
functions `Nat → Nat` updated pointwise.  Signed intermediate values
(`i8`/`i16` casts in the sprite renderer and relative jumps) use `Int`.
Stateful Rust methods `fn f(&mut self, ...)` become Lean functions from the
receiver (and the memory bus, where the source takes `&mut Memory`) to the
updated value(s).
-/

set_option maxRecDepth 8000

/-- Pointwise update of a byte-array-as-function. -/
def setByte (f : Nat → Nat) (i v : Nat) : Nat → Nat :=
  fun j => if j = i then v else f j

/-! ## Timer (src/timer.rs) -/

structure Timer where
  internal_counter : Nat
  tima : Nat
  tma : Nat
  tac : Nat
  interrupt_pending : Bool
  overflow_cycles : Nat
  tima_overflow_value : Nat

/-- `Timer::new`: post-boot internal counter value 0xABCC, everything else zero. -/
def Timer.new : Timer :=
  { internal_counter := 0xABCC, tima := 0, tma := 0, tac := 0,
    interrupt_pending := false, overflow_cycles := 0, tima_overflow_value := 0 }

/-- `Timer::get_timer_bit`: bit position selected by TAC[1:0]. -/
def Timer.get_timer_bit (t : Timer) : Nat :=
  match t.tac &&& 0x03 with
  | 0 => 9
  | 1 => 3
  | 2 => 5
  | _ => 7

/-- `Timer::get_timer_enable_bit`: TAC enable AND the selected counter bit. -/
def Timer.get_timer_enable_bit (t : Timer) : Bool :=
  if t.tac &&& 0x04 = 0 then false
  else (t.internal_counter &&& (1 <<< t.get_timer_bit)) != 0

/-- The TIMA increment-with-overflow step.  The source repeats this block
verbatim inside `tick` and the DIV/TAC write paths; it is factored here. -/
def Timer.inc_tima (t : Timer) : Timer :=
  let newTima := (t.tima + 1) % 256
  if t.tima = 0xFF then
    { t with overflow_cycles := 4, tima_overflow_value := newTima, tima := newTima }
  else
    { t with tima := newTima }

/-- One iteration of the T-cycle loop inside `Timer::tick`. -/
def Timer.tickT (t : Timer) : Timer :=
  if t.overflow_cycles > 0 then
    let oc := t.overflow_cycles - 1
    let t1 :=
      if oc = 0 then
        { t with overflow_cycles := oc, tima := t.tma, interrupt_pending := true }
      else
        { t with overflow_cycles := oc }
    { t1 with internal_counter := (t1.internal_counter + 1) % 65536 }
  else
    let oldBit := t.get_timer_enable_bit
    let t1 := { t with internal_counter := (t.internal_counter + 1) % 65536 }
    let newBit := t1.get_timer_enable_bit
    if oldBit && !newBit then t1.inc_tima else t1

/-- `Timer::tick`: converts M-cycles to T-cycles (u16 arithmetic) and runs
the per-T-cycle loop. -/
def Timer.tick (t : Timer) (m_cycles : Nat) : Timer :=
  Nat.iterate Timer.tickT (((m_cycles % 65536) * 4) % 65536) t

/-- `Timer::read`. -/
def Timer.read (t : Timer) (address : Nat) : Nat :=
  if address = 0xFF04 then (t.internal_counter >>> 8) % 256
  else if address = 0xFF05 then t.tima
  else if address = 0xFF06 then t.tma
  else if address = 0xFF07 then t.tac ||| 0xF8
  else 0xFF

/-- `Timer::write`. -/
def Timer.write (t : Timer) (address value : Nat) : Timer :=
  let v := value % 256
  if address = 0xFF04 then
    let oldBit := t.get_timer_enable_bit
    let t1 := { t with internal_counter := 0 }
    let newBit := t1.get_timer_enable_bit
    if oldBit && !newBit then t1.inc_tima else t1
  else if address = 0xFF05 then
    let t1 := { t with tima := v }
    if t1.overflow_cycles > 0 then { t1 with overflow_cycles := 0 } else t1
  else if address = 0xFF06 then { t with tma := v }
  else if address = 0xFF07 then
    let oldBit := t.get_timer_enable_bit
    let t1 := { t with tac := v &&& 0x07 }
    let newBit := t1.get_timer_enable_bit
    if oldBit && !newBit then t1.inc_tima else t1
  else t

/-- `Timer::clear_interrupt`. -/
def Timer.clear_interrupt (t : Timer) : Timer := { t with interrupt_pending := false }

/-! ## Serial (src/serial.rs) -/

structure Serial where
  sb : Nat
  sc : Nat
  interrupt_pending : Bool
  output_buffer : List Nat

/-- `Serial::new`. -/
def Serial.new : Serial := { sb := 0, sc := 0, interrupt_pending := false, output_buffer := [] }

/-- `Serial::read`: SC reads OR in 0x7E. -/
def Serial.read (s : Serial) (address : Nat) : Nat :=
  if address = 0xFF01 then s.sb
  else if address = 0xFF02 then s.sc ||| 0x7E
  else 0xFF

/-- `Serial::write`: an SC write with bit 7 set captures SB into the output
buffer (except bytes 0x00 and 0x55); the transfer is never completed and no
interrupt is raised. -/
def Serial.write (s : Serial) (address value : Nat) : Serial :=
  let v := value % 256
  if address = 0xFF01 then { s with sb := v }
  else if address = 0xFF02 then
    let s1 := { s with sc := (v &&& 0x81) ||| 0x7E }
    if v &&& 0x80 ≠ 0 then
      if s1.sb ≠ 0 ∧ s1.sb ≠ 0x55 then
        { s1 with output_buffer := s1.output_buffer ++ [s1.sb] }
      else s1
    else s1
  else s

/-- `Serial::clear_interrupt`. -/
def Serial.clear_interrupt (s : Serial) : Serial := { s with interrupt_pending := false }

/-! ## Joypad (src/joypad.rs)

Only the parts sampled by the CPU's interrupt dispatch are embedded
(`interrupt_requested`, `clear_interrupt`); the button matrix itself is not
needed by any claim. -/

structure Joypad where
  register : Nat
  interrupt_requested : Bool

/-- `Joypad::new`. -/
def Joypad.new : Joypad := { register := 0xCF, interrupt_requested := false }

/-- `Joypad::clear_interrupt`. -/
def Joypad.clear_interrupt (j : Joypad) : Joypad := { j with interrupt_requested := false }

/-! ## PPU (src/ppu.rs) -/

structure Ppu where
  vram : Nat → Nat
  oam : Nat → Nat
  lcdc : Nat
  stat : Nat
  scy : Nat
  scx : Nat
  ly : Nat
  lyc : Nat
  bgp : Nat
  obp0 : Nat
  obp1 : Nat
  wy : Nat
  wx : Nat
  framebuffer : Nat → Nat
  bg_color_index : Nat → Nat
  mode_cycles : Nat
  vblank_interrupt : Bool
  stat_interrupt : Bool
  window_line_counter : Nat
  prev_lcd_enabled : Bool

def MODE_HBLANK : Nat := 0
def MODE_VBLANK : Nat := 1
def MODE_OAM_SCAN : Nat := 2
def MODE_DRAWING : Nat := 3

def LCDC_LCD_ENABLE : Nat := 0b10000000
def LCDC_OBJ_SIZE : Nat := 0b00000100
def STAT_MODE_MASK : Nat := 0b00000011

/-- `Ppu::new`. -/
def Ppu.new : Ppu :=
  { vram := fun _ => 0, oam := fun _ => 0,
    lcdc := 0x91, stat := 0x02, scy := 0, scx := 0, ly := 0, lyc := 0,
    bgp := 0xFC, obp0 := 0xFF, obp1 := 0xFF, wy := 0, wx := 0,
    framebuffer := fun _ => 0, bg_color_index := fun _ => 0,
    mode_cycles := 0, vblank_interrupt := false, stat_interrupt := false,
    window_line_counter := 0, prev_lcd_enabled := true }

/-- `Ppu::set_mode`: writes STAT's low two bits and raises the STAT latch on
an enabled, actually-changing mode transition. -/
def Ppu.set_mode (p : Ppu) (mode : Nat) : Ppu :=
  let old_mode := p.stat &&& STAT_MODE_MASK
  let p1 := { p with stat := (p.stat &&& (0xFF ^^^ STAT_MODE_MASK)) ||| (mode &&& STAT_MODE_MASK) }
  let should_interrupt :=
    if mode = MODE_HBLANK then p1.stat &&& 0x08 ≠ 0
    else if mode = MODE_VBLANK then p1.stat &&& 0x10 ≠ 0
    else if mode = MODE_OAM_SCAN then p1.stat &&& 0x20 ≠ 0
    else False
  if should_interrupt ∧ old_mode ≠ mode then { p1 with stat_interrupt := true } else p1

/-- `Ppu::read`: LCD register file; everything else (including 0xFF46) reads 0xFF. -/
def Ppu.read (p : Ppu) (address : Nat) : Nat :=
  if address = 0xFF40 then p.lcdc
  else if address = 0xFF41 then p.stat
  else if address = 0xFF42 then p.scy
  else if address = 0xFF43 then p.scx
  else if address = 0xFF44 then p.ly
  else if address = 0xFF45 then p.lyc
  else if address = 0xFF47 then p.bgp
  else if address = 0xFF48 then p.obp0
  else if address = 0xFF49 then p.obp1
  else if address = 0xFF4A then p.wy
  else if address = 0xFF4B then p.wx
  else 0xFF

/-- `Ppu::write`: LCD register file; LY (0xFF44) is read-only and every
unmatched address — 0xFF46 among them — falls through to the do-nothing arm. -/
def Ppu.write (p : Ppu) (address value : Nat) : Ppu :=
  let v := value % 256
  if address = 0xFF40 then
    let lcd_was_off := p.lcdc &&& LCDC_LCD_ENABLE = 0
    let p1 := { p with lcdc := v }
    let lcd_is_on := p1.lcdc &&& LCDC_LCD_ENABLE ≠ 0
    if lcd_was_off ∧ lcd_is_on then
      (({ p1 with ly := 0, mode_cycles := 0 } : Ppu).set_mode MODE_OAM_SCAN)
    else p1
  else if address = 0xFF41 then { p with stat := (p.stat &&& 0x07) ||| (v &&& 0xF8) }
  else if address = 0xFF42 then { p with scy := v }
  else if address = 0xFF43 then { p with scx := v }
  else if address = 0xFF44 then p
  else if address = 0xFF45 then { p with lyc := v }
  else if address = 0xFF47 then { p with bgp := v }
  else if address = 0xFF48 then { p with obp0 := v }
  else if address = 0xFF49 then { p with obp1 := v }
  else if address = 0xFF4A then { p with wy := v }
  else if address = 0xFF4B then { p with wx := v }
  else p

/-- The fixed DMG shade table of `Ppu::get_palette`. -/
def ppuColors (i : Nat) : Nat × Nat × Nat :=
  if i = 0 then (0x9B, 0xBC, 0x0F)
  else if i = 1 then (0x8B, 0xAC, 0x0F)
  else if i = 2 then (0x30, 0x62, 0x30)
  else (0x0F, 0x38, 0x0F)

/-- `Ppu::get_palette`: maps each 2-bit field of a palette byte to a shade. -/
def get_palette (palette_byte : Nat) (i : Nat) : Nat × Nat × Nat :=
  ppuColors ((palette_byte >>> (i * 2)) &&& 0x03)

/-- The sprite-selection loop of `Ppu::render_sprites_line`: up to 10 OAM
indices whose Y range contains the scanline, in OAM order. -/
def collectSprites (p : Ppu) (ly obj_size : Nat) : List Nat :=
  (List.range 40).foldl
    (fun acc i =>
      if acc.length ≥ 10 then acc
      else
        let sprite_y : Int := (p.oam (i * 4) : Int) - 16
        if (ly : Int) ≥ sprite_y ∧ (ly : Int) < sprite_y + obj_size then acc ++ [i] else acc)
    []

/-- The per-sprite body of the drawing loop of `Ppu::render_sprites_line`. -/
def drawSprite (ly obj_size : Nat) (p : Ppu) (i : Nat) : Ppu :=
  let base := i * 4
  let sprite_y : Int := (p.oam base : Int) - 16
  let sprite_x : Int := (p.oam (base + 1) : Int) - 8
  let tile0 := p.oam (base + 2)
  let attr := p.oam (base + 3)
  let y := (((ly : Int) - sprite_y).emod 256).toNat
  let y_eff := if attr &&& 0x40 ≠ 0 then (obj_size - 1) - y else y
  let tile := if obj_size = 16 then tile0 &&& 0xFE else tile0
  let tile_index := tile + y_eff / 8
  let tile_line := y_eff % 8
  let tile_addr := 0x8000 + tile_index * 16
  let tile_offset := tile_addr + tile_line * 2 - 0x8000
  if tile_offset + 1 ≥ 0x2000 then p
  else
    let byte1 := p.vram tile_offset
    let byte2 := p.vram (tile_offset + 1)
    (List.range 8).foldl
      (fun q px =>
        let bit_index := if attr &&& 0x20 ≠ 0 then px else 7 - px
        let color_low := (byte1 >>> bit_index) &&& 1
        let color_high := (byte2 >>> bit_index) &&& 1
        let color_id := (color_high <<< 1) ||| color_low
        if color_id = 0 then q
        else
          let x : Int := sprite_x + px
          if ¬ (0 ≤ x ∧ x < 160) then q
          else
            let x_usize := x.toNat
            if attr &&& 0x80 ≠ 0 ∧ q.bg_color_index (ly * 160 + x_usize) ≠ 0 then q
            else
              let color := get_palette (if attr &&& 0x10 ≠ 0 then q.obp1 else q.obp0) color_id
              let fb_idx := (ly * 160 + x_usize) * 3
              { q with framebuffer :=
                  setByte (setByte (setByte q.framebuffer fb_idx color.1)
                    (fb_idx + 1) color.2.1) (fb_idx + 2) color.2.2 })
      p

/-- `Ppu::render_sprites_line`: select up to 10 sprites for the line, then
paint them in OAM order. -/
def render_sprites_line (p : Ppu) (ly : Nat) : Ppu :=
  let obj_size := if p.lcdc &&& LCDC_OBJ_SIZE ≠ 0 then 16 else 8
  (collectSprites p ly obj_size).foldl (drawSprite ly obj_size) p

/-! ## Memory bus (src/memory.rs) -/

structure Memory where
  main_memory : Nat → Nat
  rom_buffer : Nat → Nat
  rom_loaded : Bool
  current_rom_bank : Nat
  timer : Timer
  serial : Serial
  ppu : Ppu
  joypad_state : Nat
  /-- Modelled from the spec: the bus "owns the Timer, Serial, PPU, and
  Joypad as sub-objects".  The `joypad` field is accessed by
  `Cpu::handle_interrupts` (and the frame loop) but is missing from the
  `Memory` struct declaration in src/memory.rs; only its interrupt latch is
  relevant here. -/
  joypad : Joypad

def BANK_MASK : Nat := 0b00011111

/-- `Memory::new` with an all-zero ROM buffer (the ROM image is a
constructor argument in the source; claims here never read ROM contents). -/
def Memory.new : Memory :=
  { main_memory := fun _ => 0, rom_buffer := fun _ => 0, rom_loaded := true,
    current_rom_bank := 1, timer := Timer.new, serial := Serial.new,
    ppu := Ppu.new, joypad_state := 0xCF, joypad := Joypad.new }

/-- `Memory::read_8`: the address-decoding chain, in source order.
The file-logging side effects of the source are state-free and omitted. -/
def Memory.read_8 (m : Memory) (address : Nat) : Nat :=
  if address = 0xFF00 then m.joypad_state
  else if 0xFF04 ≤ address ∧ address ≤ 0xFF07 then m.timer.read address
  else if 0xFF01 ≤ address ∧ address ≤ 0xFF02 then m.serial.read address
  else if 0xFF40 ≤ address ∧ address ≤ 0xFF4B then m.ppu.read address
  else if 0x8000 ≤ address ∧ address ≤ 0x9FFF then m.ppu.vram (address - 0x8000)
  else if 0xFE00 ≤ address ∧ address ≤ 0xFE9F then m.ppu.oam (address - 0xFE00)
  else if m.rom_loaded ∧ address < 0x4000 then m.rom_buffer address
  else if m.rom_loaded ∧ 0x4000 ≤ address ∧ address < 0x8000 then
    let bank := if m.current_rom_bank = 0 then 1 else m.current_rom_bank
    let offset := bank * 0x4000 + (address - 0x4000)
    if offset < 0x2FFFF then m.rom_buffer offset else 0xFF
  else m.main_memory address

/-- `Memory::read_16`: little-endian pair of byte reads. -/
def Memory.read_16 (m : Memory) (address : Nat) : Nat :=
  let x := m.read_8 address
  let y := m.read_8 ((address + 1) % 65536)
  (y <<< 8) ||| x

/-- `Memory::write_to_rom_register`: 5-bit bank select in 0x2000–0x3FFF,
bank 0 remapped to 1. -/
def Memory.write_to_rom_register (m : Memory) (address value : Nat) : Memory :=
  if 0x2000 ≤ address ∧ address ≤ 0x3FFF then
    let bank_number := value &&& BANK_MASK
    let bank_number := if bank_number = 0 then 1 else bank_number
    { m with current_rom_bank := bank_number }
  else m

/-- `Memory::write_8`: the address-decoding chain, in source order.  Note
that a VRAM write is unconditional (no PPU-mode gate), an OAM write is
unconditional (no DMA gate), the 0xFF00 write keeps only the low nibble of
the stored register plus bits 4–5 of the value, and 0xFF46 falls into the
PPU-register range and so reaches `Ppu::write`'s do-nothing arm. -/
def Memory.write_8 (m : Memory) (address value : Nat) : Memory :=
  let v := value % 256
  if address = 0xFF00 then
    { m with joypad_state := (m.joypad_state &&& 0x0F) ||| (v &&& 0x30) }
  else if 0xFF04 ≤ address ∧ address ≤ 0xFF07 then
    { m with timer := m.timer.write address v }
  else if 0xFF01 ≤ address ∧ address ≤ 0xFF02 then
    { m with serial := m.serial.write address v }
  else if 0xFF40 ≤ address ∧ address ≤ 0xFF4B then
    { m with ppu := m.ppu.write address v }
  else if 0x8000 ≤ address ∧ address ≤ 0x9FFF then
    { m with ppu := { m.ppu with vram := setByte m.ppu.vram (address - 0x8000) v } }
  else if 0xFE00 ≤ address ∧ address ≤ 0xFE9F then
    { m with ppu := { m.ppu with oam := setByte m.ppu.oam (address - 0xFE00) v } }
  else if address < 0x8000 then m.write_to_rom_register address v
  else { m with main_memory := setByte m.main_memory address v }

/-- `Memory::write_16`: low byte at `address`, high byte at `address+1`
(wrapping). -/
def Memory.write_16 (m : Memory) (address value : Nat) : Memory :=
  let v := value % 65536
  (m.write_8 address (v &&& 0xFF)).write_8 ((address + 1) % 65536) (v >>> 8)

/-! ## CPU (src/cpu.rs) -/

inductive Reg8 where
  | A | B | C | D | E | H | L | F
deriving DecidableEq

inductive Reg16 where
  | AF | BC | DE | HL | SP | PC
deriving DecidableEq

inductive Operand where
  | Reg8 (r : Reg8)
  | Reg16 (r : Reg16)
  | MemHL
  | MemBC
  | MemDE
deriving DecidableEq

/-- `Operand::from_index`: 0=B, 1=C, 2=D, 3=E, 4=H, 5=L, 6=(HL), 7=A.
Every call site masks the index with `& 0x07`, so the source's panic arm for
out-of-range indices is unreachable; indices above 7 map to A here. -/
def Operand.from_index (idx : Nat) : Operand :=
  match idx with
  | 0 => Operand.Reg8 Reg8.B
  | 1 => Operand.Reg8 Reg8.C
  | 2 => Operand.Reg8 Reg8.D
  | 3 => Operand.Reg8 Reg8.E
  | 4 => Operand.Reg8 Reg8.H
  | 5 => Operand.Reg8 Reg8.L
  | 6 => Operand.MemHL
  | _ => Operand.Reg8 Reg8.A

structure Registers where
  af : Nat
  bc : Nat
  de : Nat
  hl : Nat
  sp : Nat
  pc : Nat
  ime : Nat

structure Cpu where
  registers : Registers
  cycles : Nat
  ei_pending : Bool
  halted : Bool
  halt_bug : Bool

/-- `Registers::read_r8` (the `as u8` casts become `% 256`). -/
def Registers.read_r8 (r : Registers) (register : Reg8) : Nat :=
  match register with
  | Reg8.A => (r.af >>> 8) % 256
  | Reg8.B => (r.bc >>> 8) % 256
  | Reg8.C => r.bc &&& 0xFF
  | Reg8.D => (r.de >>> 8) % 256
  | Reg8.E => r.de &&& 0xFF
  | Reg8.H => (r.hl >>> 8) % 256
  | Reg8.L => r.hl &&& 0xFF
  | Reg8.F => r.af &&& 0xFF

/-- `Registers::read_r16`. -/
def Registers.read_r16 (r : Registers) (register : Reg16) : Nat :=
  match register with
  | Reg16.AF => r.af
  | Reg16.BC => r.bc
  | Reg16.DE => r.de
  | Reg16.HL => r.hl
  | Reg16.SP => r.sp
  | Reg16.PC => r.pc

/-- `Registers::write_r8` (the `u8` parameter becomes `% 256`); a write to F
masks the low nibble with `& 0xF0`. -/
def Registers.write_r8 (r : Registers) (register : Reg8) (value : Nat) : Registers :=
  let v := value % 256
  match register with
  | Reg8.A => { r with af := (r.af &&& 0xFF) ||| (v <<< 8) }
  | Reg8.B => { r with bc := (r.bc &&& 0xFF) ||| (v <<< 8) }
  | Reg8.C => { r with bc := (r.bc &&& 0xFF00) ||| v }
  | Reg8.D => { r with de := (r.de &&& 0xFF) ||| (v <<< 8) }
  | Reg8.E => { r with de := (r.de &&& 0xFF00) ||| v }
  | Reg8.H => { r with hl := (r.hl &&& 0xFF) ||| (v <<< 8) }
  | Reg8.L => { r with hl := (r.hl &&& 0xFF00) ||| v }
  | Reg8.F => { r with af := (r.af &&& 0xFF00) ||| (v &&& 0xF0) }

/-- `Registers::write_r16` (the `u16` parameter becomes `% 65536`); a write
to AF masks with `& 0xFFF0`. -/
def Registers.write_r16 (r : Registers) (register : Reg16) (value : Nat) : Registers :=
  let v := value % 65536
  match register with
  | Reg16.AF => { r with af := v &&& 0xFFF0 }
  | Reg16.BC => { r with bc := v }
  | Reg16.DE => { r with de := v }
  | Reg16.HL => { r with hl := v }
  | Reg16.SP => { r with sp := v }
  | Reg16.PC => { r with pc := v }

/-- `Registers::read_ime`. -/
def Registers.read_ime (r : Registers) : Nat := r.ime

/-- `Registers::write_ime`. -/
def Registers.write_ime (r : Registers) (value : Nat) : Registers := { r with ime := value }

/-- `OPCODE_DURATION`: fixed cycle count per primary opcode.  For the
conditional jumps/calls/returns the stored value is the taken duration and
is charged unconditionally by `handle_post_instruction`. -/
def OPCODE_DURATION : List Nat :=
  [4, 12, 8, 8, 4, 4, 8, 4, 20, 8, 8, 8, 4, 4, 8, 4,
   4, 12, 8, 8, 4, 4, 8, 4, 12, 8, 8, 8, 4, 4, 8, 4,
   12, 12, 8, 8, 4, 4, 8, 4, 12, 8, 8, 8, 4, 4, 8, 4,
   12, 12, 8, 8, 12, 12, 12, 4, 12, 8, 8, 8, 4, 4, 8, 4,
   4, 4, 4, 4, 4, 4, 8, 4, 4, 4, 4, 4, 4, 4, 8, 4,
   4, 4, 4, 4, 4, 4, 8, 4, 4, 4, 4, 4, 4, 4, 8, 4,
   4, 4, 4, 4, 4, 4, 8, 4, 4, 4, 4, 4, 4, 4, 8, 4,
   8, 8, 8, 8, 8, 8, 4, 8, 4, 4, 4, 4, 4, 4, 8, 4,
   4, 4, 4, 4, 4, 4, 8, 4, 4, 4, 4, 4, 4, 4, 8, 4,
   4, 4, 4, 4, 4, 4, 8, 4, 4, 4, 4, 4, 4, 4, 8, 4,
   4, 4, 4, 4, 4, 4, 8, 4, 4, 4, 4, 4, 4, 4, 8, 4,
   4, 4, 4, 4, 4, 4, 8, 4, 4, 4, 4, 4, 4, 4, 8, 4,
   20, 12, 16, 16, 24, 16, 8, 16, 20, 16, 16, 4, 24, 24, 8, 16,
   20, 12, 16, 0, 24, 16, 8, 16, 20, 16, 16, 0, 24, 0, 8, 16,
   12, 12, 8, 0, 0, 16, 8, 16, 16, 4, 16, 0, 0, 0, 8, 16,
   12, 12, 8, 4, 0, 16, 8, 16, 12, 8, 16, 4, 0, 0, 8, 16]

/-- `OPCODE_DURATION_CB`: fixed cycle count per CB opcode (16 for the (HL)
column, 8 otherwise). -/
def OPCODE_DURATION_CB : List Nat :=
  [8, 8, 8, 8, 8, 8, 16, 8, 8, 8, 8, 8, 8, 8, 16, 8,
   8, 8, 8, 8, 8, 8, 16, 8, 8, 8, 8, 8, 8, 8, 16, 8,
   8, 8, 8, 8, 8, 8, 16, 8, 8, 8, 8, 8, 8, 8, 16, 8,
   8, 8, 8, 8, 8, 8, 16, 8, 8, 8, 8, 8, 8, 8, 16, 8,
   8, 8, 8, 8, 8, 8, 16, 8, 8, 8, 8, 8, 8, 8, 16, 8,
   8, 8, 8, 8, 8, 8, 16, 8, 8, 8, 8, 8, 8, 8, 16, 8,
   8, 8, 8, 8, 8, 8, 16, 8, 8, 8, 8, 8, 8, 8, 16, 8,
   8, 8, 8, 8, 8, 8, 16, 8, 8, 8, 8, 8, 8, 8, 16, 8,
   8, 8, 8, 8, 8, 8, 16, 8, 8, 8, 8, 8, 8, 8, 16, 8,
   8, 8, 8, 8, 8, 8, 16, 8, 8, 8, 8, 8, 8, 8, 16, 8,
   8, 8, 8, 8, 8, 8, 16, 8, 8, 8, 8, 8, 8, 8, 16, 8,
   8, 8, 8, 8, 8, 8, 16, 8, 8, 8, 8, 8, 8, 8, 16, 8,
   8, 8, 8, 8, 8, 8, 16, 8, 8, 8, 8, 8, 8, 8, 16, 8,
   8, 8, 8, 8, 8, 8, 16, 8, 8, 8, 8, 8, 8, 8, 16, 8,
   8, 8, 8, 8, 8, 8, 16, 8, 8, 8, 8, 8, 8, 8, 16, 8,
   8, 8, 8, 8, 8, 8, 16, 8, 8, 8, 8, 8, 8, 8, 16, 8]

/-- `OPCODE_LENGTHS`: instruction length in bytes (0 marks invalid opcodes). -/
def OPCODE_LENGTHS : List Nat :=
  [1, 3, 1, 1, 1, 1, 2, 1, 3, 1, 1, 1, 1, 1, 2, 1,
   2, 3, 1, 1, 1, 1, 2, 1, 2, 1, 1, 1, 1, 1, 2, 1,
   2, 3, 1, 1, 1, 1, 2, 1, 2, 1, 1, 1, 1, 1, 2, 1,
   2, 3, 1, 1, 1, 1, 2, 1, 2, 1, 1, 1, 1, 1, 2, 1,
   1, 1, 1, 1, 1, 1, 1, 1, 1, 1, 1, 1, 1, 1, 1, 1,
   1, 1, 1, 1, 1, 1, 1, 1, 1, 1, 1, 1, 1, 1, 1, 1,
   1, 1, 1, 1, 1, 1, 1, 1, 1, 1, 1, 1, 1, 1, 1, 1,
   1, 1, 1, 1, 1, 1, 1, 1, 1, 1, 1, 1, 1, 1, 1, 1,
   1, 1, 1, 1, 1, 1, 1, 1, 1, 1, 1, 1, 1, 1, 1, 1,
   1, 1, 1, 1, 1, 1, 1, 1, 1, 1, 1, 1, 1, 1, 1, 1,
   1, 1, 1, 1, 1, 1, 1, 1, 1, 1, 1, 1, 1, 1, 1, 1,
   1, 1, 1, 1, 1, 1, 1, 1, 1, 1, 1, 1, 1, 1, 1, 1,
   1, 1, 3, 3, 3, 1, 2, 1, 1, 1, 3, 2, 3, 3, 2, 1,
   1, 1, 3, 0, 3, 1, 2, 1, 1, 1, 3, 0, 3, 0, 2, 1,
   2, 1, 1, 0, 0, 1, 2, 1, 2, 1, 3, 0, 0, 0, 2, 1,
   2, 1, 1, 1, 0, 1, 2, 1, 2, 1, 3, 1, 0, 0, 2, 1]

def ZERO_FLAG : Nat := 0b10000000
def SUBTRACT_FLAG : Nat := 0b01000000
def HALF_CARRY_FLAG : Nat := 0b00100000
def CARRY_FLAG : Nat := 0b00010000

/-- `Cpu::new`. -/
def Cpu.new : Cpu :=
  { registers := { af := 0, bc := 0, de := 0, hl := 0, sp := 0, pc := 0, ime := 0 },
    cycles := 0, ei_pending := false, halted := false, halt_bug := false }

/-- `Cpu::read_operand`.  The `Reg16` operand variant is never constructed
by any call site (the source panics on it); it reads as 0 here. -/
def Cpu.read_operand (c : Cpu) (m : Memory) (op : Operand) : Nat :=
  match op with
  | Operand.Reg8 reg => c.registers.read_r8 reg
  | Operand.MemHL => m.read_8 (c.registers.read_r16 Reg16.HL)
  | Operand.MemBC => m.read_8 (c.registers.read_r16 Reg16.BC)
  | Operand.MemDE => m.read_8 (c.registers.read_r16 Reg16.DE)
  | Operand.Reg16 _ => 0

/-- `Cpu::write_operand` (`Reg16` variant unreachable, a no-op here). -/
def Cpu.write_operand (c : Cpu) (m : Memory) (op : Operand) (value : Nat) : Cpu × Memory :=
  match op with
  | Operand.Reg8 reg => ({ c with registers := c.registers.write_r8 reg value }, m)
  | Operand.MemHL => (c, m.write_8 (c.registers.read_r16 Reg16.HL) value)
  | Operand.MemBC => (c, m.write_8 (c.registers.read_r16 Reg16.BC) value)
  | Operand.MemDE => (c, m.write_8 (c.registers.read_r16 Reg16.DE) value)
  | Operand.Reg16 _ => (c, m)


/-- `Cpu::ld_r16_nn`. -/
def Cpu.ld_r16_nn (c : Cpu) (m : Memory) (reg : Reg16) : Cpu × Memory :=
  let value := m.read_16 ((c.registers.read_r16 Reg16.PC + 1) % 65536)
  ({ c with registers := c.registers.write_r16 reg value }, m)

/-- `Cpu::ld_r8_n`. -/
def Cpu.ld_r8_n (c : Cpu) (m : Memory) (reg : Reg8) : Cpu × Memory :=
  let value := m.read_8 ((c.registers.read_r16 Reg16.PC + 1) % 65536)
  ({ c with registers := c.registers.write_r8 reg value }, m)

/-- `Cpu::ld_operand`. -/
def Cpu.ld_operand (c : Cpu) (m : Memory) (dest src : Operand) : Cpu × Memory :=
  let value := c.read_operand m src
  c.write_operand m dest value

/-- `Cpu::ld_nn_a`. -/
def Cpu.ld_nn_a (c : Cpu) (m : Memory) : Cpu × Memory :=
  let value := c.registers.read_r8 Reg8.A
  (c, m.write_8 (m.read_16 ((c.registers.read_r16 Reg16.PC + 1) % 65536)) value)

/-- `Cpu::ld_m_n`. -/
def Cpu.ld_m_n (c : Cpu) (m : Memory) : Cpu × Memory :=
  let value := m.read_8 ((c.registers.read_r16 Reg16.PC + 1) % 65536)
  (c, m.write_8 (c.registers.read_r16 Reg16.HL) value)

/-- `Cpu::ld_sp_e` (opcode 0xF8, LD HL,SP+e). -/
def Cpu.ld_sp_e (c : Cpu) (m : Memory) : Cpu × Memory :=
  let offset_u8 := m.read_8 ((c.registers.read_r16 Reg16.PC + 1) % 65536)
  let sp := c.registers.read_r16 Reg16.SP
  -- `offset as i16 as u16`: sign-extension of the byte
  let offset_u16 := if offset_u8 ≥ 128 then offset_u8 + 0xFF00 else offset_u8
  let result := (sp + offset_u16) % 65536
  let c1 := { c with registers := c.registers.write_r16 Reg16.HL result }
  let sp_low := sp &&& 0xFF
  let flags0 : Nat := 0
  let flags1 := if (sp_low &&& 0xF) + (offset_u8 &&& 0xF) > 0xF then flags0 ||| HALF_CARRY_FLAG else flags0
  let flags2 := if sp_low + offset_u8 > 0xFF then flags1 ||| CARRY_FLAG else flags1
  ({ c1 with registers := c1.registers.write_r8 Reg8.F flags2 }, m)

/-- `Cpu::ld_sp_hl` (opcode 0xF9). -/
def Cpu.ld_sp_hl (c : Cpu) (m : Memory) : Cpu × Memory :=
  let value := c.registers.read_r16 Reg16.HL
  ({ c with registers := c.registers.write_r16 Reg16.SP value }, m)

/-- `Cpu::ld_nn_sp` (opcode 0x08). -/
def Cpu.ld_nn_sp (c : Cpu) (m : Memory) : Cpu × Memory :=
  let addr := m.read_16 ((c.registers.read_r16 Reg16.PC + 1) % 65536)
  let sp := c.registers.read_r16 Reg16.SP
  (c, m.write_16 addr sp)

/-- `Cpu::ldh_n_a`. -/
def Cpu.ldh_n_a (c : Cpu) (m : Memory) : Cpu × Memory :=
  let value := c.registers.read_r8 Reg8.A
  (c, m.write_8 (0xFF00 + m.read_8 ((c.registers.read_r16 Reg16.PC + 1) % 65536)) value)

/-- `Cpu::ldh_a_n`. -/
def Cpu.ldh_a_n (c : Cpu) (m : Memory) : Cpu × Memory :=
  let offset := m.read_8 ((c.registers.read_r16 Reg16.PC + 1) % 65536)
  let value := m.read_8 (0xFF00 + offset)
  ({ c with registers := c.registers.write_r8 Reg8.A value }, m)

/-- `Cpu::ldh_c_a`. -/
def Cpu.ldh_c_a (c : Cpu) (m : Memory) : Cpu × Memory :=
  let value := c.registers.read_r8 Reg8.A
  (c, m.write_8 (0xFF00 + c.registers.read_r8 Reg8.C) value)

/-- `Cpu::ldh_a_c`. -/
def Cpu.ldh_a_c (c : Cpu) (m : Memory) : Cpu × Memory :=
  let value := m.read_8 (0xFF00 + c.registers.read_r8 Reg8.C)
  ({ c with registers := c.registers.write_r8 Reg8.A value }, m)

/-- `Cpu::pop`. -/
def Cpu.pop (c : Cpu) (m : Memory) (reg : Reg16) : Cpu × Memory :=
  let value := m.read_16 (c.registers.read_r16 Reg16.SP)
  let c1 := { c with registers := c.registers.write_r16 reg value }
  let sp := c1.registers.read_r16 Reg16.SP
  ({ c1 with registers := c1.registers.write_r16 Reg16.SP ((sp + 2) % 65536) }, m)

/-- `Cpu::push` (`sp - 2` wraps in u16). -/
def Cpu.push (c : Cpu) (m : Memory) (reg : Reg16) : Cpu × Memory :=
  let value := c.registers.read_r16 reg
  let sp := c.registers.read_r16 Reg16.SP
  let c1 := { c with registers := c.registers.write_r16 Reg16.SP ((sp + 65534) % 65536) }
  (c1, m.write_16 (c1.registers.read_r16 Reg16.SP) value)

/-- `Cpu::inc_r8`. -/
def Cpu.inc_r8 (c : Cpu) (reg : Reg8) : Cpu :=
  let value := c.registers.read_r8 reg
  let result := (value + 1) % 256
  let c1 := { c with registers := c.registers.write_r8 reg result }
  let flags := c1.registers.read_r8 Reg8.F
  let flags := flags &&& (0xFF ^^^ (ZERO_FLAG ||| SUBTRACT_FLAG ||| HALF_CARRY_FLAG))
  let flags := if result = 0 then flags ||| ZERO_FLAG else flags
  let flags := if value &&& 0x0F = 0x0F then flags ||| HALF_CARRY_FLAG else flags
  { c1 with registers := c1.registers.write_r8 Reg8.F flags }

/-- `Cpu::inc_r16` (wrapping). -/
def Cpu.inc_r16 (c : Cpu) (reg : Reg16) : Cpu :=
  let value := c.registers.read_r16 reg
  { c with registers := c.registers.write_r16 reg ((value + 1) % 65536) }

/-- `Cpu::dec_r8`. -/
def Cpu.dec_r8 (c : Cpu) (reg : Reg8) : Cpu :=
  let value := c.registers.read_r8 reg
  let result := (value + 255) % 256
  let c1 := { c with registers := c.registers.write_r8 reg result }
  let flags := c1.registers.read_r8 Reg8.F
  let flags := flags &&& (0xFF ^^^ (ZERO_FLAG ||| HALF_CARRY_FLAG))
  let flags := flags ||| SUBTRACT_FLAG
  let flags := if result = 0 then flags ||| ZERO_FLAG else flags
  let flags := if value &&& 0x0F = 0 then flags ||| HALF_CARRY_FLAG else flags
  { c1 with registers := c1.registers.write_r8 Reg8.F flags }

/-- `Cpu::dec_r16` (wrapping). -/
def Cpu.dec_r16 (c : Cpu) (reg : Reg16) : Cpu :=
  let value := c.registers.read_r16 reg
  { c with registers := c.registers.write_r16 reg ((value + 65535) % 65536) }

/-- `Cpu::inc_mem`. -/
def Cpu.inc_mem (c : Cpu) (m : Memory) (reg : Reg16) : Cpu × Memory :=
  let addr := c.registers.read_r16 reg
  let value := m.read_8 addr
  let result := (value + 1) % 256
  let m1 := m.write_8 addr result
  let flags := c.registers.read_r8 Reg8.F
  let flags := flags &&& (0xFF ^^^ (ZERO_FLAG ||| SUBTRACT_FLAG ||| HALF_CARRY_FLAG))
  let flags := if result = 0 then flags ||| ZERO_FLAG else flags
  let flags := if value &&& 0x0F = 0x0F then flags ||| HALF_CARRY_FLAG else flags
  ({ c with registers := c.registers.write_r8 Reg8.F flags }, m1)

/-- `Cpu::dec_mem`. -/
def Cpu.dec_mem (c : Cpu) (m : Memory) (reg : Reg16) : Cpu × Memory :=
  let addr := c.registers.read_r16 reg
  let value := m.read_8 addr
  let result := (value + 255) % 256
  let m1 := m.write_8 addr result
  let flags := c.registers.read_r8 Reg8.F
  let flags := flags &&& (0xFF ^^^ (ZERO_FLAG ||| HALF_CARRY_FLAG))
  let flags := flags ||| SUBTRACT_FLAG
  let flags := if result = 0 then flags ||| ZERO_FLAG else flags
  let flags := if value &&& 0x0F = 0 then flags ||| HALF_CARRY_FLAG else flags
  ({ c with registers := c.registers.write_r8 Reg8.F flags }, m1)

/-- `Cpu::rlca` (Z always cleared). -/
def Cpu.rlca (c : Cpu) : Cpu :=
  let value := c.registers.read_r8 Reg8.A
  let msb := value &&& 0x80
  let new_value := ((value <<< 1) &&& 0xFF) ||| (msb >>> 7)
  let c1 := { c with registers := c.registers.write_r8 Reg8.A new_value }
  let flags := c1.registers.read_r8 Reg8.F
  let flags := flags &&& (0xFF ^^^ (HALF_CARRY_FLAG ||| SUBTRACT_FLAG ||| ZERO_FLAG))
  let flags := if msb ≠ 0 then flags ||| CARRY_FLAG else flags &&& (0xFF ^^^ CARRY_FLAG)
  { c1 with registers := c1.registers.write_r8 Reg8.F flags }

/-- `Cpu::rla`. -/
def Cpu.rla (c : Cpu) : Cpu :=
  let value := c.registers.read_r8 Reg8.A
  let msb := value &&& 0x80
  let new_value := ((value <<< 1) &&& 0xFF) ||| ((c.registers.read_r8 Reg8.F &&& CARRY_FLAG) >>> 4)
  let c1 := { c with registers := c.registers.write_r8 Reg8.A new_value }
  let flags := c1.registers.read_r8 Reg8.F
  let flags := flags &&& (0xFF ^^^ (HALF_CARRY_FLAG ||| SUBTRACT_FLAG ||| ZERO_FLAG ||| CARRY_FLAG))
  let flags := if msb ≠ 0 then flags ||| CARRY_FLAG else flags
  { c1 with registers := c1.registers.write_r8 Reg8.F flags }

/-- `Cpu::rrca`. -/
def Cpu.rrca (c : Cpu) : Cpu :=
  let value := c.registers.read_r8 Reg8.A
  let lsb := value &&& 0x01
  let new_value := (value >>> 1) ||| (lsb <<< 7)
  let c1 := { c with registers := c.registers.write_r8 Reg8.A new_value }
  let flags := c1.registers.read_r8 Reg8.F
  let flags := flags &&& (0xFF ^^^ (HALF_CARRY_FLAG ||| SUBTRACT_FLAG ||| ZERO_FLAG ||| CARRY_FLAG))
  let flags := if lsb ≠ 0 then flags ||| CARRY_FLAG else flags
  { c1 with registers := c1.registers.write_r8 Reg8.F flags }

/-- `Cpu::rra`. -/
def Cpu.rra (c : Cpu) : Cpu :=
  let value := c.registers.read_r8 Reg8.A
  let lsb := value &&& 0x01
  let new_value := (value >>> 1) ||| (((c.registers.read_r8 Reg8.F &&& CARRY_FLAG) <<< 3) &&& 0xFF)
  let c1 := { c with registers := c.registers.write_r8 Reg8.A new_value }
  let flags := c1.registers.read_r8 Reg8.F
  let flags := flags &&& (0xFF ^^^ (HALF_CARRY_FLAG ||| SUBTRACT_FLAG ||| ZERO_FLAG ||| CARRY_FLAG))
  let flags := if lsb ≠ 0 then flags ||| CARRY_FLAG else flags
  { c1 with registers := c1.registers.write_r8 Reg8.F flags }

/-- `Cpu::add_hl`. -/
def Cpu.add_hl (c : Cpu) (reg : Reg16) : Cpu :=
  let value := c.registers.read_r16 reg
  let hl := c.registers.read_r16 Reg16.HL
  let result := value + hl
  let c1 := { c with registers := c.registers.write_r16 Reg16.HL (result % 65536) }
  let flags := c1.registers.read_r8 Reg8.F
  let flags := flags &&& (0xFF ^^^ (SUBTRACT_FLAG ||| CARRY_FLAG ||| HALF_CARRY_FLAG))
  let flags := if result > 0xFFFF then flags ||| CARRY_FLAG else flags
  let flags := if (value &&& 0xFFF) + (hl &&& 0xFFF) > 0xFFF then flags ||| HALF_CARRY_FLAG else flags
  { c1 with registers := c1.registers.write_r8 Reg8.F flags }

/-- The shared body of `Cpu::add_a_r` / `Cpu::add_a_n`. -/
def Cpu.add_a_value (c : Cpu) (value : Nat) : Cpu :=
  let a := c.registers.read_r8 Reg8.A
  let result := value + a
  let c1 := { c with registers := c.registers.write_r8 Reg8.A (result % 256) }
  let flags := c1.registers.read_r8 Reg8.F
  let flags := flags &&& (0xFF ^^^ (SUBTRACT_FLAG ||| CARRY_FLAG ||| HALF_CARRY_FLAG ||| ZERO_FLAG))
  let flags := if result > 0xFF then flags ||| CARRY_FLAG else flags
  let flags := if (value &&& 0xF) + (a &&& 0xF) > 0xF then flags ||| HALF_CARRY_FLAG else flags
  let flags := if result % 256 = 0 then flags ||| ZERO_FLAG else flags
  { c1 with registers := c1.registers.write_r8 Reg8.F flags }

/-- `Cpu::add_a_r`. -/
def Cpu.add_a_r (c : Cpu) (m : Memory) (op : Operand) : Cpu × Memory :=
  (c.add_a_value (c.read_operand m op), m)

/-- `Cpu::add_a_n`. -/
def Cpu.add_a_n (c : Cpu) (m : Memory) : Cpu × Memory :=
  (c.add_a_value (m.read_8 ((c.registers.read_r16 Reg16.PC + 1) % 65536)), m)

/-- `Cpu::add_sp_e` (opcode 0xE8). -/
def Cpu.add_sp_e (c : Cpu) (m : Memory) : Cpu × Memory :=
  let offset_u8 := m.read_8 ((c.registers.read_r16 Reg16.PC + 1) % 65536)
  let sp := c.registers.read_r16 Reg16.SP
  let offset_u16 := if offset_u8 ≥ 128 then offset_u8 + 0xFF00 else offset_u8
  let result := (sp + offset_u16) % 65536
  let c1 := { c with registers := c.registers.write_r16 Reg16.SP result }
  let sp_low := sp &&& 0xFF
  let flags0 : Nat := 0
  let flags1 := if (sp_low &&& 0xF) + (offset_u8 &&& 0xF) > 0xF then flags0 ||| HALF_CARRY_FLAG else flags0
  let flags2 := if sp_low + offset_u8 > 0xFF then flags1 ||| CARRY_FLAG else flags1
  ({ c1 with registers := c1.registers.write_r8 Reg8.F flags2 }, m)

/-- The shared body of `Cpu::adc_a_r` / `Cpu::adc_a_n`. -/
def Cpu.adc_a_value (c : Cpu) (value : Nat) : Cpu :=
  let a := c.registers.read_r8 Reg8.A
  let carry := (c.registers.read_r8 Reg8.F &&& CARRY_FLAG) >>> 4
  let result := value + a + carry
  let c1 := { c with registers := c.registers.write_r8 Reg8.A (result % 256) }
  let flags := c1.registers.read_r8 Reg8.F
  let flags := flags &&& (0xFF ^^^ (SUBTRACT_FLAG ||| CARRY_FLAG ||| HALF_CARRY_FLAG ||| ZERO_FLAG))
  let flags := if result > 0xFF then flags ||| CARRY_FLAG else flags
  let flags := if (value &&& 0xF) + (a &&& 0xF) + carry > 0xF then flags ||| HALF_CARRY_FLAG else flags
  let flags := if result % 256 = 0 then flags ||| ZERO_FLAG else flags
  { c1 with registers := c1.registers.write_r8 Reg8.F flags }

/-- `Cpu::adc_a_r`. -/
def Cpu.adc_a_r (c : Cpu) (m : Memory) (op : Operand) : Cpu × Memory :=
  (c.adc_a_value (c.read_operand m op), m)

/-- `Cpu::adc_a_n`. -/
def Cpu.adc_a_n (c : Cpu) (m : Memory) : Cpu × Memory :=
  (c.adc_a_value (m.read_8 ((c.registers.read_r16 Reg16.PC + 1) % 65536)), m)

/-- The shared body of `Cpu::sub_a_r` / `Cpu::sub_a_n`. -/
def Cpu.sub_a_value (c : Cpu) (value : Nat) : Cpu :=
  let a := c.registers.read_r8 Reg8.A
  let result := (a + 256 - value % 256) % 256
  let c1 := { c with registers := c.registers.write_r8 Reg8.A result }
  let flags0 := SUBTRACT_FLAG
  let flags1 := if a < value then flags0 ||| CARRY_FLAG else flags0
  let flags2 := if a &&& 0x0F < value &&& 0x0F then flags1 ||| HALF_CARRY_FLAG else flags1
  let flags3 := if result = 0 then flags2 ||| ZERO_FLAG else flags2
  { c1 with registers := c1.registers.write_r8 Reg8.F flags3 }

/-- `Cpu::sub_a_r`. -/
def Cpu.sub_a_r (c : Cpu) (m : Memory) (op : Operand) : Cpu × Memory :=
  (c.sub_a_value (c.read_operand m op), m)

/-- `Cpu::sub_a_n`. -/
def Cpu.sub_a_n (c : Cpu) (m : Memory) : Cpu × Memory :=
  (c.sub_a_value (m.read_8 ((c.registers.read_r16 Reg16.PC + 1) % 65536)), m)

/-- The shared body of `Cpu::sbc_a_r` / `Cpu::sbc_a_n` (u16 wrapping
double subtraction). -/
def Cpu.sbc_a_value (c : Cpu) (value : Nat) : Cpu :=
  let a := c.registers.read_r8 Reg8.A
  let carry_in := if c.registers.read_r8 Reg8.F &&& CARRY_FLAG ≠ 0 then 1 else 0
  let temp_result := (a + 131072 - value % 256 - carry_in) % 65536
  let result := temp_result % 256
  let c1 := { c with registers := c.registers.write_r8 Reg8.A result }
  let flags0 := SUBTRACT_FLAG
  let flags1 := if temp_result > 0xFF then flags0 ||| CARRY_FLAG else flags0
  let flags2 := if a &&& 0x0F < (value &&& 0x0F) + carry_in then flags1 ||| HALF_CARRY_FLAG else flags1
  let flags3 := if result = 0 then flags2 ||| ZERO_FLAG else flags2
  { c1 with registers := c1.registers.write_r8 Reg8.F flags3 }

/-- `Cpu::sbc_a_r`. -/
def Cpu.sbc_a_r (c : Cpu) (m : Memory) (op : Operand) : Cpu × Memory :=
  (c.sbc_a_value (c.read_operand m op), m)

/-- `Cpu::sbc_a_n`. -/
def Cpu.sbc_a_n (c : Cpu) (m : Memory) : Cpu × Memory :=
  (c.sbc_a_value (m.read_8 ((c.registers.read_r16 Reg16.PC + 1) % 65536)), m)

/-- `Cpu::daa`. -/
def Cpu.daa (c : Cpu) : Cpu :=
  let value := c.registers.read_r8 Reg8.A
  let flags := c.registers.read_r8 Reg8.F
  let addition := flags &&& SUBTRACT_FLAG = 0
  let set_carry := if addition then (flags &&& CARRY_FLAG ≠ 0 ∨ value > 0x99) else flags &&& CARRY_FLAG ≠ 0
  let adjust0 : Nat := 0
  let adjust1 := if set_carry then adjust0 ||| 0x60 else adjust0
  let adjust2 :=
    if addition then
      if flags &&& HALF_CARRY_FLAG ≠ 0 ∨ value &&& 0x0F > 0x09 then adjust1 ||| 0x06 else adjust1
    else
      if flags &&& HALF_CARRY_FLAG ≠ 0 then adjust1 ||| 0x06 else adjust1
  let value1 := if addition then (value + adjust2) % 256 else (value + 256 - adjust2) % 256
  let new_flags := flags &&& (0xFF ^^^ (ZERO_FLAG ||| HALF_CARRY_FLAG ||| CARRY_FLAG))
  let new_flags := if value1 = 0 then new_flags ||| ZERO_FLAG else new_flags
  let new_flags := if set_carry then new_flags ||| CARRY_FLAG else new_flags
  let c1 := { c with registers := c.registers.write_r8 Reg8.F new_flags }
  { c1 with registers := c1.registers.write_r8 Reg8.A value1 }

/-- `Cpu::cpl`. -/
def Cpu.cpl (c : Cpu) : Cpu :=
  let value := c.registers.read_r8 Reg8.A
  let c1 := { c with registers := c.registers.write_r8 Reg8.A (0xFF ^^^ value) }
  let flags := c1.registers.read_r8 Reg8.F
  { c1 with registers := c1.registers.write_r8 Reg8.F (flags ||| (SUBTRACT_FLAG ||| HALF_CARRY_FLAG)) }

/-- The shared body of `Cpu::and_a_r` / `Cpu::and_a_n`. -/
def Cpu.and_a_value (c : Cpu) (value : Nat) : Cpu :=
  let a := c.registers.read_r8 Reg8.A
  let result := a &&& value
  let c1 := { c with registers := c.registers.write_r8 Reg8.A result }
  let flags := c1.registers.read_r8 Reg8.F
  let flags := flags ||| HALF_CARRY_FLAG
  let flags := flags &&& (0xFF ^^^ SUBTRACT_FLAG)
  let flags := flags &&& (0xFF ^^^ CARRY_FLAG)
  let flags := flags &&& (0xFF ^^^ ZERO_FLAG)
  let flags := if result = 0 then flags ||| ZERO_FLAG else flags
  { c1 with registers := c1.registers.write_r8 Reg8.F flags }

/-- `Cpu::and_a_r`. -/
def Cpu.and_a_r (c : Cpu) (m : Memory) (op : Operand) : Cpu × Memory :=
  (c.and_a_value (c.read_operand m op), m)

/-- `Cpu::and_a_n`. -/
def Cpu.and_a_n (c : Cpu) (m : Memory) : Cpu × Memory :=
  (c.and_a_value (m.read_8 ((c.registers.read_r16 Reg16.PC + 1) % 65536)), m)

/-- The shared body of `Cpu::xor_a_r` / `Cpu::xor_a_n`. -/
def Cpu.xor_a_value (c : Cpu) (value : Nat) : Cpu :=
  let a := c.registers.read_r8 Reg8.A
  let result := a ^^^ value
  let c1 := { c with registers := c.registers.write_r8 Reg8.A result }
  let flags := c1.registers.read_r8 Reg8.F
  let flags := flags &&& (0xFF ^^^ HALF_CARRY_FLAG)
  let flags := flags &&& (0xFF ^^^ SUBTRACT_FLAG)
  let flags := flags &&& (0xFF ^^^ CARRY_FLAG)
  let flags := flags &&& (0xFF ^^^ ZERO_FLAG)
  let flags := if result = 0 then flags ||| ZERO_FLAG else flags
  { c1 with registers := c1.registers.write_r8 Reg8.F flags }

/-- `Cpu::xor_a_r`. -/
def Cpu.xor_a_r (c : Cpu) (m : Memory) (op : Operand) : Cpu × Memory :=
  (c.xor_a_value (c.read_operand m op), m)

/-- `Cpu::xor_a_n`. -/
def Cpu.xor_a_n (c : Cpu) (m : Memory) : Cpu × Memory :=
  (c.xor_a_value (m.read_8 ((c.registers.read_r16 Reg16.PC + 1) % 65536)), m)

/-- The shared body of `Cpu::or_a_r` / `Cpu::or_a_n`. -/
def Cpu.or_a_value (c : Cpu) (value : Nat) : Cpu :=
  let a := c.registers.read_r8 Reg8.A
  let result := a ||| value
  let c1 := { c with registers := c.registers.write_r8 Reg8.A result }
  let flags := c1.registers.read_r8 Reg8.F
  let flags := flags &&& (0xFF ^^^ HALF_CARRY_FLAG)
  let flags := flags &&& (0xFF ^^^ SUBTRACT_FLAG)
  let flags := flags &&& (0xFF ^^^ CARRY_FLAG)
  let flags := flags &&& (0xFF ^^^ ZERO_FLAG)
  let flags := if result = 0 then flags ||| ZERO_FLAG else flags
  { c1 with registers := c1.registers.write_r8 Reg8.F flags }

/-- `Cpu::or_a_r`. -/
def Cpu.or_a_r (c : Cpu) (m : Memory) (op : Operand) : Cpu × Memory :=
  (c.or_a_value (c.read_operand m op), m)

/-- `Cpu::or_a_n`. -/
def Cpu.or_a_n (c : Cpu) (m : Memory) : Cpu × Memory :=
  (c.or_a_value (m.read_8 ((c.registers.read_r16 Reg16.PC + 1) % 65536)), m)

/-- The shared body of `Cpu::cp_a_r` / `Cpu::cp_a_n` (A unchanged). -/
def Cpu.cp_a_value (c : Cpu) (value : Nat) : Cpu :=
  let a := c.registers.read_r8 Reg8.A
  let flags0 := SUBTRACT_FLAG
  let flags1 := if a < value then flags0 ||| CARRY_FLAG else flags0
  let flags2 := if a &&& 0x0F < value &&& 0x0F then flags1 ||| HALF_CARRY_FLAG else flags1
  let flags3 := if a = value then flags2 ||| ZERO_FLAG else flags2
  { c with registers := c.registers.write_r8 Reg8.F flags3 }

/-- `Cpu::cp_a_r`. -/
def Cpu.cp_a_r (c : Cpu) (m : Memory) (op : Operand) : Cpu × Memory :=
  (c.cp_a_value (c.read_operand m op), m)

/-- `Cpu::cp_a_n`. -/
def Cpu.cp_a_n (c : Cpu) (m : Memory) : Cpu × Memory :=
  (c.cp_a_value (m.read_8 ((c.registers.read_r16 Reg16.PC + 1) % 65536)), m)

/-- `Cpu::nop`. -/
def Cpu.nop (c : Cpu) : Cpu := c

/-- `Cpu::stop` (empty body in the source). -/
def Cpu.stop (c : Cpu) : Cpu := c

/-- `Cpu::halt`: with IME=0 and a pending interrupt the HALT bug latch is
set instead of halting. -/
def Cpu.halt (c : Cpu) (m : Memory) : Cpu :=
  let ie := m.read_8 0xFFFF
  let if_reg := m.read_8 0xFF0F
  let interrupt_pending := ie &&& if_reg &&& 0x1F ≠ 0
  if c.registers.read_ime = 0 ∧ interrupt_pending then { c with halt_bug := true }
  else { c with halted := true }

/-- `Cpu::scf`. -/
def Cpu.scf (c : Cpu) : Cpu :=
  let flags := c.registers.read_r8 Reg8.F
  let flags := flags ||| CARRY_FLAG
  let flags := flags &&& (0xFF ^^^ HALF_CARRY_FLAG)
  let flags := flags &&& (0xFF ^^^ SUBTRACT_FLAG)
  { c with registers := c.registers.write_r8 Reg8.F flags }

/-- `Cpu::ccf`. -/
def Cpu.ccf (c : Cpu) : Cpu :=
  let flags := c.registers.read_r8 Reg8.F
  let flags := flags ^^^ CARRY_FLAG
  let flags := flags &&& (0xFF ^^^ HALF_CARRY_FLAG)
  let flags := flags &&& (0xFF ^^^ SUBTRACT_FLAG)
  { c with registers := c.registers.write_r8 Reg8.F flags }

/-! CB-prefixed operations -/

/-- `Cpu::rlc_r`. -/
def Cpu.rlc_r (c : Cpu) (m : Memory) (op : Operand) : Cpu × Memory :=
  let value := c.read_operand m op
  let flags := c.registers.read_r8 Reg8.F
  let flags := flags &&& (0xFF ^^^ CARRY_FLAG)
  let flags := if value &&& 0x80 ≠ 0 then flags ||| CARRY_FLAG else flags
  let flags := flags &&& (0xFF ^^^ HALF_CARRY_FLAG)
  let flags := flags &&& (0xFF ^^^ SUBTRACT_FLAG)
  let flags := flags &&& (0xFF ^^^ ZERO_FLAG)
  let result := ((value <<< 1) &&& 0xFF) ||| (value >>> 7)
  let flags := if result = 0 then flags ||| ZERO_FLAG else flags
  let c1 := { c with registers := c.registers.write_r8 Reg8.F flags }
  c1.write_operand m op result

/-- `Cpu::rrc_r`. -/
def Cpu.rrc_r (c : Cpu) (m : Memory) (op : Operand) : Cpu × Memory :=
  let value := c.read_operand m op
  let flags := c.registers.read_r8 Reg8.F
  let flags := flags &&& (0xFF ^^^ CARRY_FLAG)
  let flags := if value &&& 0x01 ≠ 0 then flags ||| CARRY_FLAG else flags
  let flags := flags &&& (0xFF ^^^ HALF_CARRY_FLAG)
  let flags := flags &&& (0xFF ^^^ SUBTRACT_FLAG)
  let flags := flags &&& (0xFF ^^^ ZERO_FLAG)
  let result := (value >>> 1) ||| ((value &&& 0x01) <<< 7)
  let flags := if result = 0 then flags ||| ZERO_FLAG else flags
  let c1 := { c with registers := c.registers.write_r8 Reg8.F flags }
  c1.write_operand m op result

/-- `Cpu::rl_r`. -/
def Cpu.rl_r (c : Cpu) (m : Memory) (op : Operand) : Cpu × Memory :=
  let value := c.read_operand m op
  let flags := c.registers.read_r8 Reg8.F
  let carry := if flags &&& CARRY_FLAG ≠ 0 then 1 else 0
  let flags := flags &&& (0xFF ^^^ CARRY_FLAG)
  let flags := if value &&& 0x80 ≠ 0 then flags ||| CARRY_FLAG else flags
  let flags := flags &&& (0xFF ^^^ HALF_CARRY_FLAG)
  let flags := flags &&& (0xFF ^^^ SUBTRACT_FLAG)
  let flags := flags &&& (0xFF ^^^ ZERO_FLAG)
  let result := ((value <<< 1) &&& 0xFF) ||| carry
  let flags := if result = 0 then flags ||| ZERO_FLAG else flags
  let c1 := { c with registers := c.registers.write_r8 Reg8.F flags }
  c1.write_operand m op result

/-- `Cpu::rr_r`. -/
def Cpu.rr_r (c : Cpu) (m : Memory) (op : Operand) : Cpu × Memory :=
  let value := c.read_operand m op
  let flags := c.registers.read_r8 Reg8.F
  let carry := if flags &&& CARRY_FLAG ≠ 0 then 1 else 0
  let flags := flags &&& (0xFF ^^^ CARRY_FLAG)
  let flags := if value &&& 0x01 ≠ 0 then flags ||| CARRY_FLAG else flags
  let flags := flags &&& (0xFF ^^^ HALF_CARRY_FLAG)
  let flags := flags &&& (0xFF ^^^ SUBTRACT_FLAG)
  let flags := flags &&& (0xFF ^^^ ZERO_FLAG)
  let result := (value >>> 1) ||| (carry <<< 7)
  let flags := if result = 0 then flags ||| ZERO_FLAG else flags
  let c1 := { c with registers := c.registers.write_r8 Reg8.F flags }
  c1.write_operand m op result

/-- `Cpu::sla_r` (i8 shift: bits as in u8 shift-left). -/
def Cpu.sla_r (c : Cpu) (m : Memory) (op : Operand) : Cpu × Memory :=
  let value := c.read_operand m op
  let flags := c.registers.read_r8 Reg8.F
  let flags := flags &&& (0xFF ^^^ CARRY_FLAG)
  let flags := if value &&& 0x80 ≠ 0 then flags ||| CARRY_FLAG else flags
  let flags := flags &&& (0xFF ^^^ HALF_CARRY_FLAG)
  let flags := flags &&& (0xFF ^^^ SUBTRACT_FLAG)
  let flags := flags &&& (0xFF ^^^ ZERO_FLAG)
  let result := (value <<< 1) &&& 0xFF
  let flags := if result = 0 then flags ||| ZERO_FLAG else flags
  let c1 := { c with registers := c.registers.write_r8 Reg8.F flags }
  c1.write_operand m op result

/-- `Cpu::sra_r` (i8 arithmetic shift right: the sign bit is replicated). -/
def Cpu.sra_r (c : Cpu) (m : Memory) (op : Operand) : Cpu × Memory :=
  let value := c.read_operand m op
  let flags := c.registers.read_r8 Reg8.F
  let flags := flags &&& (0xFF ^^^ CARRY_FLAG)
  let flags := if value &&& 0x01 ≠ 0 then flags ||| CARRY_FLAG else flags
  let flags := flags &&& (0xFF ^^^ HALF_CARRY_FLAG)
  let flags := flags &&& (0xFF ^^^ SUBTRACT_FLAG)
  let flags := flags &&& (0xFF ^^^ ZERO_FLAG)
  let result := (value >>> 1) ||| (value &&& 0x80)
  let flags := if result = 0 then flags ||| ZERO_FLAG else flags
  let c1 := { c with registers := c.registers.write_r8 Reg8.F flags }
  c1.write_operand m op result

/-- `Cpu::swap_r` (u8 rotate by 4). -/
def Cpu.swap_r (c : Cpu) (m : Memory) (op : Operand) : Cpu × Memory :=
  let value := c.read_operand m op
  let flags := c.registers.read_r8 Reg8.F
  let flags := flags &&& (0xFF ^^^ (CARRY_FLAG ||| HALF_CARRY_FLAG ||| SUBTRACT_FLAG ||| ZERO_FLAG))
  let result := ((value <<< 4) &&& 0xFF) ||| (value >>> 4)
  let flags := if result = 0 then flags ||| ZERO_FLAG else flags
  let c1 := { c with registers := c.registers.write_r8 Reg8.F flags }
  c1.write_operand m op result

/-- `Cpu::bit_n_r` (flags only; C preserved). -/
def Cpu.bit_n_r (c : Cpu) (m : Memory) (op : Operand) (n : Nat) : Cpu × Memory :=
  let value := c.read_operand m op
  let flags := c.registers.read_r8 Reg8.F
  let flags := flags ||| HALF_CARRY_FLAG
  let flags := flags &&& (0xFF ^^^ SUBTRACT_FLAG)
  let flags := flags &&& (0xFF ^^^ ZERO_FLAG)
  let flags := if value &&& (1 <<< n) = 0 then flags ||| ZERO_FLAG else flags
  ({ c with registers := c.registers.write_r8 Reg8.F flags }, m)

/-- `Cpu::srl_r`. -/
def Cpu.srl_r (c : Cpu) (m : Memory) (op : Operand) : Cpu × Memory :=
  let value := c.read_operand m op
  let flags := c.registers.read_r8 Reg8.F
  let flags := flags &&& (0xFF ^^^ CARRY_FLAG)
  let flags := if value &&& 0x01 ≠ 0 then flags ||| CARRY_FLAG else flags
  let flags := flags &&& (0xFF ^^^ HALF_CARRY_FLAG)
  let flags := flags &&& (0xFF ^^^ SUBTRACT_FLAG)
  let flags := flags &&& (0xFF ^^^ ZERO_FLAG)
  let result := value >>> 1
  let flags := if result = 0 then flags ||| ZERO_FLAG else flags
  let c1 := { c with registers := c.registers.write_r8 Reg8.F flags }
  c1.write_operand m op result

/-- `Cpu::res_n_r` (no flags). -/
def Cpu.res_n_r (c : Cpu) (m : Memory) (op : Operand) (n : Nat) : Cpu × Memory :=
  let value := c.read_operand m op
  let result := value &&& (0xFF ^^^ (1 <<< n))
  c.write_operand m op result

/-- `Cpu::set_n_r` (no flags). -/
def Cpu.set_n_r (c : Cpu) (m : Memory) (op : Operand) (n : Nat) : Cpu × Memory :=
  let value := c.read_operand m op
  let result := value ||| (1 <<< n)
  c.write_operand m op result

/-- `Cpu::call_cb`: fetch the CB opcode at PC+1 and dispatch by range. -/
def Cpu.call_cb (c : Cpu) (m : Memory) : Cpu × Memory :=
  let cb_opcode := m.read_8 ((c.registers.read_r16 Reg16.PC + 1) % 65536)
  let op := Operand.from_index (cb_opcode &&& 0x07)
  if cb_opcode ≤ 0x07 then c.rlc_r m op
  else if cb_opcode ≤ 0x0F then c.rrc_r m op
  else if cb_opcode ≤ 0x17 then c.rl_r m op
  else if cb_opcode ≤ 0x1F then c.rr_r m op
  else if cb_opcode ≤ 0x27 then c.sla_r m op
  else if cb_opcode ≤ 0x2F then c.sra_r m op
  else if cb_opcode ≤ 0x37 then c.swap_r m op
  else if cb_opcode ≤ 0x3F then c.srl_r m op
  else if cb_opcode ≤ 0x7F then c.bit_n_r m op ((cb_opcode >>> 3) &&& 0x07)
  else if cb_opcode ≤ 0xBF then c.res_n_r m op ((cb_opcode >>> 3) &&& 0x07)
  else c.set_n_r m op ((cb_opcode >>> 3) &&& 0x07)

/-- `Cpu::di`: immediate IME clear, cancels pending EI. -/
def Cpu.di (c : Cpu) : Cpu :=
  { c with registers := c.registers.write_ime 0, ei_pending := false }

/-- `Cpu::ei`: only sets the `ei_pending` latch. -/
def Cpu.ei (c : Cpu) : Cpu :=
  { c with ei_pending := true }

/-! Control flow -/

/-- Sign-extended i8 read of a displacement byte, as `Int`. -/
def i8val (b : Nat) : Int :=
  if b % 256 ≥ 128 then (b % 256 : Int) - 256 else (b % 256 : Int)

/-- `Cpu::jr_e`. -/
def Cpu.jr_e (c : Cpu) (m : Memory) : Cpu × Memory :=
  let offset := i8val (m.read_8 ((c.registers.read_r16 Reg16.PC + 1) % 65536))
  let pc := c.registers.read_r16 Reg16.PC
  let target := (((pc : Int) + 2 + offset).emod 65536).toNat
  ({ c with registers := c.registers.write_r16 Reg16.PC target }, m)

/-- The flag mask selected by the `'c'`/`'z'` character arguments of the
conditional-flow helpers. -/
def condFlag (cflag : Char) : Nat :=
  if cflag = 'c' then CARRY_FLAG else ZERO_FLAG

/-- The shift amount for the `'c'`/`'z'` character arguments. -/
def condShift (cflag : Char) : Nat :=
  if cflag = 'c' then 4 else 7

/-- `Cpu::jr_f_e`. -/
def Cpu.jr_f_e (c : Cpu) (m : Memory) (cflag : Char) (z : Bool) : Cpu × Memory :=
  let cond := if z then 1 else 0
  if (c.registers.read_r8 Reg8.F &&& condFlag cflag) >>> condShift cflag = cond then
    let offset := i8val (m.read_8 ((c.registers.read_r16 Reg16.PC + 1) % 65536))
    let pc := c.registers.read_r16 Reg16.PC
    let target := (((pc : Int) + 2 + offset).emod 65536).toNat
    ({ c with registers := c.registers.write_r16 Reg16.PC target }, m)
  else
    let pc := c.registers.read_r16 Reg16.PC
    ({ c with registers := c.registers.write_r16 Reg16.PC ((pc + 2) % 65536) }, m)

/-- `Cpu::jp_nn`. -/
def Cpu.jp_nn (c : Cpu) (m : Memory) : Cpu × Memory :=
  let target := m.read_16 ((c.registers.read_r16 Reg16.PC + 1) % 65536)
  ({ c with registers := c.registers.write_r16 Reg16.PC target }, m)

/-- `Cpu::jp_f_nn`. -/
def Cpu.jp_f_nn (c : Cpu) (m : Memory) (cflag : Char) (condition : Bool) : Cpu × Memory :=
  let cond := if condition then 1 else 0
  if (c.registers.read_r8 Reg8.F &&& condFlag cflag) >>> condShift cflag = cond then
    let target := m.read_16 ((c.registers.read_r16 Reg16.PC + 1) % 65536)
    ({ c with registers := c.registers.write_r16 Reg16.PC target }, m)
  else
    let pc := c.registers.read_r16 Reg16.PC
    ({ c with registers := c.registers.write_r16 Reg16.PC ((pc + 3) % 65536) }, m)

/-- `Cpu::jp_hl`. -/
def Cpu.jp_hl (c : Cpu) : Cpu :=
  { c with registers := c.registers.write_r16 Reg16.PC (c.registers.read_r16 Reg16.HL) }

/-- `Cpu::call_nn`. -/
def Cpu.call_nn (c : Cpu) (m : Memory) : Cpu × Memory :=
  let target := m.read_16 ((c.registers.read_r16 Reg16.PC + 1) % 65536)
  let return_address := (c.registers.read_r16 Reg16.PC + 3) % 65536
  let c1 := { c with registers :=
    c.registers.write_r16 Reg16.SP ((c.registers.read_r16 Reg16.SP + 65534) % 65536) }
  let m1 := m.write_16 (c1.registers.read_r16 Reg16.SP) return_address
  ({ c1 with registers := c1.registers.write_r16 Reg16.PC target }, m1)

/-- `Cpu::call_f_nn`. -/
def Cpu.call_f_nn (c : Cpu) (m : Memory) (cflag : Char) (z : Bool) : Cpu × Memory :=
  let cond := if z then 1 else 0
  if (c.registers.read_r8 Reg8.F &&& condFlag cflag) >>> condShift cflag = cond then
    let target := m.read_16 ((c.registers.read_r16 Reg16.PC + 1) % 65536)
    let return_address := (c.registers.read_r16 Reg16.PC + 3) % 65536
    let c1 := { c with registers :=
      c.registers.write_r16 Reg16.SP ((c.registers.read_r16 Reg16.SP + 65534) % 65536) }
    let m1 := m.write_16 (c1.registers.read_r16 Reg16.SP) return_address
    ({ c1 with registers := c1.registers.write_r16 Reg16.PC target }, m1)
  else
    let pc := c.registers.read_r16 Reg16.PC
    ({ c with registers := c.registers.write_r16 Reg16.PC ((pc + 3) % 65536) }, m)

/-- `Cpu::rst`. -/
def Cpu.rst (c : Cpu) (m : Memory) (value : Nat) : Cpu × Memory :=
  let return_address := (c.registers.read_r16 Reg16.PC + 1) % 65536
  let sp := c.registers.read_r16 Reg16.SP
  let c1 := { c with registers := c.registers.write_r16 Reg16.SP ((sp + 65534) % 65536) }
  let m1 := m.write_16 (c1.registers.read_r16 Reg16.SP) return_address
  ({ c1 with registers := c1.registers.write_r16 Reg16.PC value }, m1)

/-- `Cpu::ret`. -/
def Cpu.ret (c : Cpu) (m : Memory) : Cpu × Memory :=
  let value := m.read_16 (c.registers.read_r16 Reg16.SP)
  let c1 := { c with registers :=
    c.registers.write_r16 Reg16.SP ((c.registers.read_r16 Reg16.SP + 2) % 65536) }
  ({ c1 with registers := c1.registers.write_r16 Reg16.PC value }, m)

/-- `Cpu::ret_f`. -/
def Cpu.ret_f (c : Cpu) (m : Memory) (cflag : Char) (z : Bool) : Cpu × Memory :=
  let cond := if z then 1 else 0
  if (c.registers.read_r8 Reg8.F &&& condFlag cflag) >>> condShift cflag = cond then
    let value := m.read_16 (c.registers.read_r16 Reg16.SP)
    let c1 := { c with registers :=
      c.registers.write_r16 Reg16.SP ((c.registers.read_r16 Reg16.SP + 2) % 65536) }
    ({ c1 with registers := c1.registers.write_r16 Reg16.PC value }, m)
  else
    let pc := c.registers.read_r16 Reg16.PC
    ({ c with registers := c.registers.write_r16 Reg16.PC ((pc + 1) % 65536) }, m)

/-- `Cpu::reti`. -/
def Cpu.reti (c : Cpu) (m : Memory) : Cpu × Memory :=
  let value := m.read_16 (c.registers.read_r16 Reg16.SP)
  let c1 := { c with registers :=
    c.registers.write_r16 Reg16.SP ((c.registers.read_r16 Reg16.SP + 2) % 65536) }
  let c2 := { c1 with registers := c1.registers.write_r16 Reg16.PC value }
  ({ c2 with registers := c2.registers.write_ime 1 }, m)

/-- The unknown/invalid-opcode arm of `Cpu::execute`: diagnostic print
(state-free), PC advanced by 1. -/
def Cpu.unknown_op (c : Cpu) : Cpu :=
  { c with registers :=
    c.registers.write_r16 Reg16.PC ((c.registers.read_r16 Reg16.PC + 1) % 65536) }

/-- The LDI/LDD arms of `Cpu::execute` (two statements each in the source). -/
def Cpu.ldi_hl_a (c : Cpu) (m : Memory) : Cpu × Memory :=
  let r := c.ld_operand m Operand.MemHL (Operand.Reg8 Reg8.A)
  (r.1.inc_r16 Reg16.HL, r.2)

def Cpu.ldi_a_hl (c : Cpu) (m : Memory) : Cpu × Memory :=
  let r := c.ld_operand m (Operand.Reg8 Reg8.A) Operand.MemHL
  (r.1.inc_r16 Reg16.HL, r.2)

def Cpu.ldd_hl_a (c : Cpu) (m : Memory) : Cpu × Memory :=
  let r := c.ld_operand m Operand.MemHL (Operand.Reg8 Reg8.A)
  (r.1.dec_r16 Reg16.HL, r.2)

def Cpu.ldd_a_hl (c : Cpu) (m : Memory) : Cpu × Memory :=
  let r := c.ld_operand m (Operand.Reg8 Reg8.A) Operand.MemHL
  (r.1.dec_r16 Reg16.HL, r.2)

/-- The `LD A,(nn)` arm (opcode 0xFA, inline in the source's match). -/
def Cpu.ld_a_nn (c : Cpu) (m : Memory) : Cpu × Memory :=
  let addr := m.read_16 ((c.registers.read_r16 Reg16.PC + 1) % 65536)
  let value := m.read_8 addr
  ({ c with registers := c.registers.write_r8 Reg8.A value }, m)

/-- `Cpu::execute`: the 256-way primary-opcode dispatch of the source's
match, with the 0x40–0xBF operand families handled by range in the default
arm (the source lists them as range patterns after the literal arms). -/
def Cpu.execute (c : Cpu) (m : Memory) (opcode : Nat) : Cpu × Memory :=
  match opcode with
  | 0x00 => (c.nop, m)
  | 0x01 => c.ld_r16_nn m Reg16.BC
  | 0x02 => c.ld_operand m Operand.MemBC (Operand.Reg8 Reg8.A)
  | 0x03 => (c.inc_r16 Reg16.BC, m)
  | 0x04 => (c.inc_r8 Reg8.B, m)
  | 0x05 => (c.dec_r8 Reg8.B, m)
  | 0x06 => c.ld_r8_n m Reg8.B
  | 0x07 => (c.rlca, m)
  | 0x08 => c.ld_nn_sp m
  | 0x09 => (c.add_hl Reg16.BC, m)
  | 0x0A => c.ld_operand m (Operand.Reg8 Reg8.A) Operand.MemBC
  | 0x0B => (c.dec_r16 Reg16.BC, m)
  | 0x0C => (c.inc_r8 Reg8.C, m)
  | 0x0D => (c.dec_r8 Reg8.C, m)
  | 0x0E => c.ld_r8_n m Reg8.C
  | 0x0F => (c.rrca, m)
  | 0x10 => (c.stop, m)
  | 0x11 => c.ld_r16_nn m Reg16.DE
  | 0x12 => c.ld_operand m Operand.MemDE (Operand.Reg8 Reg8.A)
  | 0x13 => (c.inc_r16 Reg16.DE, m)
  | 0x14 => (c.inc_r8 Reg8.D, m)
  | 0x15 => (c.dec_r8 Reg8.D, m)
  | 0x16 => c.ld_r8_n m Reg8.D
  | 0x17 => (c.rla, m)
  | 0x18 => c.jr_e m
  | 0x19 => (c.add_hl Reg16.DE, m)
  | 0x1A => c.ld_operand m (Operand.Reg8 Reg8.A) Operand.MemDE
  | 0x1B => (c.dec_r16 Reg16.DE, m)
  | 0x1C => (c.inc_r8 Reg8.E, m)
  | 0x1D => (c.dec_r8 Reg8.E, m)
  | 0x1E => c.ld_r8_n m Reg8.E
  | 0x1F => (c.rra, m)
  | 0x20 => c.jr_f_e m 'z' false
  | 0x21 => c.ld_r16_nn m Reg16.HL
  | 0x22 => c.ldi_hl_a m
  | 0x23 => (c.inc_r16 Reg16.HL, m)
  | 0x24 => (c.inc_r8 Reg8.H, m)
  | 0x25 => (c.dec_r8 Reg8.H, m)
  | 0x26 => c.ld_r8_n m Reg8.H
  | 0x27 => (c.daa, m)
  | 0x28 => c.jr_f_e m 'z' true
  | 0x29 => (c.add_hl Reg16.HL, m)
  | 0x2A => c.ldi_a_hl m
  | 0x2B => (c.dec_r16 Reg16.HL, m)
  | 0x2C => (c.inc_r8 Reg8.L, m)
  | 0x2D => (c.dec_r8 Reg8.L, m)
  | 0x2E => c.ld_r8_n m Reg8.L
  | 0x2F => (c.cpl, m)
  | 0x30 => c.jr_f_e m 'c' false
  | 0x31 => c.ld_r16_nn m Reg16.SP
  | 0x32 => c.ldd_hl_a m
  | 0x33 => (c.inc_r16 Reg16.SP, m)
  | 0x34 => c.inc_mem m Reg16.HL
  | 0x35 => c.dec_mem m Reg16.HL
  | 0x36 => c.ld_m_n m
  | 0x37 => (c.scf, m)
  | 0x38 => c.jr_f_e m 'c' true
  | 0x39 => (c.add_hl Reg16.SP, m)
  | 0x3A => c.ldd_a_hl m
  | 0x3B => (c.dec_r16 Reg16.SP, m)
  | 0x3C => (c.inc_r8 Reg8.A, m)
  | 0x3D => (c.dec_r8 Reg8.A, m)
  | 0x3E => c.ld_r8_n m Reg8.A
  | 0x3F => (c.ccf, m)
  | 0x76 => (c.halt m, m)
  | 0xC0 => c.ret_f m 'z' false
  | 0xC1 => c.pop m Reg16.BC
  | 0xC2 => c.jp_f_nn m 'z' false
  | 0xC3 => c.jp_nn m
  | 0xC4 => c.call_f_nn m 'z' false
  | 0xC5 => c.push m Reg16.BC
  | 0xC6 => c.add_a_n m
  | 0xC7 => c.rst m 0x00
  | 0xC8 => c.ret_f m 'z' true
  | 0xC9 => c.ret m
  | 0xCA => c.jp_f_nn m 'z' true
  | 0xCB => c.call_cb m
  | 0xCC => c.call_f_nn m 'z' true
  | 0xCD => c.call_nn m
  | 0xCE => c.adc_a_n m
  | 0xCF => c.rst m 0x08
  | 0xD0 => c.ret_f m 'c' false
  | 0xD1 => c.pop m Reg16.DE
  | 0xD2 => c.jp_f_nn m 'c' false
  | 0xD4 => c.call_f_nn m 'c' false
  | 0xD5 => c.push m Reg16.DE
  | 0xD6 => c.sub_a_n m
  | 0xD7 => c.rst m 0x10
  | 0xD8 => c.ret_f m 'c' true
  | 0xD9 => c.reti m
  | 0xDA => c.jp_f_nn m 'c' true
  | 0xDC => c.call_f_nn m 'c' true
  | 0xDE => c.sbc_a_n m
  | 0xDF => c.rst m 0x18
  | 0xE0 => c.ldh_n_a m
  | 0xE1 => c.pop m Reg16.HL
  | 0xE2 => c.ldh_c_a m
  | 0xE5 => c.push m Reg16.HL
  | 0xE6 => c.and_a_n m
  | 0xE7 => c.rst m 0x20
  | 0xE8 => c.add_sp_e m
  | 0xE9 => (c.jp_hl, m)
  | 0xEA => c.ld_nn_a m
  | 0xEE => c.xor_a_n m
  | 0xEF => c.rst m 0x28
  | 0xF0 => c.ldh_a_n m
  | 0xF1 => c.pop m Reg16.AF
  | 0xF2 => c.ldh_a_c m
  | 0xF3 => (c.di, m)
  | 0xF5 => c.push m Reg16.AF
  | 0xF6 => c.or_a_n m
  | 0xF7 => c.rst m 0x30
  | 0xF8 => c.ld_sp_e m
  | 0xF9 => c.ld_sp_hl m
  | 0xFA => c.ld_a_nn m
  | 0xFB => (c.ei, m)
  | 0xFE => c.cp_a_n m
  | 0xFF => c.rst m 0x38
  | _ =>
    if 0x40 ≤ opcode ∧ opcode ≤ 0x7F then
      -- LD r1, r2 family (0x76 HALT already matched above)
      c.ld_operand m (Operand.from_index ((opcode >>> 3) &&& 0x07))
        (Operand.from_index (opcode &&& 0x07))
    else if 0x80 ≤ opcode ∧ opcode ≤ 0x87 then c.add_a_r m (Operand.from_index (opcode &&& 0x07))
    else if 0x88 ≤ opcode ∧ opcode ≤ 0x8F then c.adc_a_r m (Operand.from_index (opcode &&& 0x07))
    else if 0x90 ≤ opcode ∧ opcode ≤ 0x97 then c.sub_a_r m (Operand.from_index (opcode &&& 0x07))
    else if 0x98 ≤ opcode ∧ opcode ≤ 0x9F then c.sbc_a_r m (Operand.from_index (opcode &&& 0x07))
    else if 0xA0 ≤ opcode ∧ opcode ≤ 0xA7 then c.and_a_r m (Operand.from_index (opcode &&& 0x07))
    else if 0xA8 ≤ opcode ∧ opcode ≤ 0xAF then c.xor_a_r m (Operand.from_index (opcode &&& 0x07))
    else if 0xB0 ≤ opcode ∧ opcode ≤ 0xB7 then c.or_a_r m (Operand.from_index (opcode &&& 0x07))
    else if 0xB8 ≤ opcode ∧ opcode ≤ 0xBF then c.cp_a_r m (Operand.from_index (opcode &&& 0x07))
    else (c.unknown_op, m)

/-- The source's `pc_modifying_opcodes` array. -/
def pc_modifying_opcodes : List Nat :=
  [0xC3, 0xC2, 0xCA, 0xD2, 0xDA,
   0xE9,
   0x18, 0x20, 0x28, 0x30, 0x38,
   0xCD, 0xC4, 0xCC, 0xD4, 0xDC,
   0xC9, 0xC0, 0xC8, 0xD0, 0xD8,
   0xD9,
   0xC7, 0xCF, 0xD7, 0xDF, 0xE7, 0xEF, 0xF7, 0xFF]

/-- `Cpu::handle_post_instruction`: PC advance by tabulated length (skipped
for PC-modifying opcodes and consumed by the HALT-bug latch), then cycle
accounting.  For 0xCB the CB duration table is indexed with the byte at
PC+1 AFTER PC has already been advanced. -/
def Cpu.handle_post_instruction (c : Cpu) (m : Memory) (opcode : Nat) : Cpu × Nat :=
  let c1 :=
    if ¬ pc_modifying_opcodes.contains opcode then
      let pc := c.registers.read_r16 Reg16.PC
      let length := OPCODE_LENGTHS.getD opcode 0
      if c.halt_bug then { c with halt_bug := false }
      else { c with registers := c.registers.write_r16 Reg16.PC ((pc + length) % 65536) }
    else c
  let cycles := OPCODE_DURATION.getD opcode 0
  let cycles :=
    if opcode = 0xCB then
      OPCODE_DURATION_CB.getD (m.read_8 ((c1.registers.read_r16 Reg16.PC + 1) % 65536)) 0
    else cycles
  ({ c1 with cycles := c1.cycles + cycles }, cycles)

/-- The fetch/execute/post-instruction/EI-latch body of `Cpu::step` (the
code after the halted-check). -/
def Cpu.stepBody (c : Cpu) (m : Memory) : Cpu × Memory × Nat :=
  let pc := c.registers.read_r16 Reg16.PC
  let opcode := m.read_8 pc
  let r := c.execute m opcode
  let pr := r.1.handle_post_instruction r.2 opcode
  let cycles := pr.2
  let c3 :=
    if pr.1.ei_pending then
      { pr.1 with registers := pr.1.registers.write_ime 1, ei_pending := false }
    else pr.1
  (c3, r.2, cycles)

/-- `Cpu::step`: a halted CPU with no pending `IE & IF & 0x1F` interrupt
consumes 4 cycles and does nothing; otherwise halt is exited and one
instruction is fetched and executed. -/
def Cpu.step (c : Cpu) (m : Memory) : Cpu × Memory × Nat :=
  if c.halted then
    let ie := m.read_8 0xFFFF
    let if_reg := m.read_8 0xFF0F
    if ie &&& if_reg &&& 0x1F ≠ 0 then
      Cpu.stepBody { c with halted := false } m
    else (c, m, 4)
  else Cpu.stepBody c m

/-- Phase 1 of `Cpu::handle_interrupts`: sample the peripheral latches,
clear them, and OR the request bits into IF (0xFF0F). -/
def mergeInterruptFlags (m : Memory) : Memory :=
  let rf0 : Nat := 0
  let rf1 := if m.ppu.vblank_interrupt then rf0 ||| 0x01 else rf0
  let ppu1 := if m.ppu.vblank_interrupt then { m.ppu with vblank_interrupt := false } else m.ppu
  let rf2 := if ppu1.stat_interrupt then rf1 ||| 0x02 else rf1
  let ppu2 := if ppu1.stat_interrupt then { ppu1 with stat_interrupt := false } else ppu1
  let rf3 := if m.timer.interrupt_pending then rf2 ||| 0x04 else rf2
  let timer1 := if m.timer.interrupt_pending then { m.timer with interrupt_pending := false } else m.timer
  let rf4 := if m.serial.interrupt_pending then rf3 ||| 0x08 else rf3
  let serial1 := if m.serial.interrupt_pending then { m.serial with interrupt_pending := false } else m.serial
  let rf5 := if m.joypad.interrupt_requested then rf4 ||| 0x10 else rf4
  let joypad1 := if m.joypad.interrupt_requested then m.joypad.clear_interrupt else m.joypad
  let m1 := { m with ppu := ppu2, timer := timer1, serial := serial1, joypad := joypad1 }
  if rf5 ≠ 0 then m1.write_8 0xFF0F (m1.read_8 0xFF0F ||| rf5) else m1

/-- `Cpu::service_interrupt`: clear halted/IME/`ei_pending`, clear the IF
bit, push PC (SP -= 2), jump to 0x0040 + 8·index, add 20 cycles. -/
def Cpu.service_interrupt (c : Cpu) (m : Memory) (interrupt : Nat) : Cpu × Memory :=
  let c1 := { c with halted := false }
  let c2 := { c1 with registers := c1.registers.write_ime 0, ei_pending := false }
  let if_reg := m.read_8 0xFF0F
  let m1 := m.write_8 0xFF0F (if_reg &&& (0xFF ^^^ (1 <<< interrupt)))
  let pc := c2.registers.read_r16 Reg16.PC
  let sp := c2.registers.read_r16 Reg16.SP
  let c3 := { c2 with registers := c2.registers.write_r16 Reg16.SP ((sp + 65534) % 65536) }
  let m2 := m1.write_16 (c3.registers.read_r16 Reg16.SP) pc
  let vector := 0x40 + interrupt * 8
  let c4 := { c3 with registers := c3.registers.write_r16 Reg16.PC vector }
  ({ c4 with cycles := c4.cycles + 20 }, m2)

/-- The priority loop of `Cpu::handle_interrupts`: first bit among 0..4. -/
def findPendingInterrupt (pending : Nat) : Option Nat :=
  (List.range 5).find? (fun i => (pending &&& (1 <<< i)) != 0)

/-- `Cpu::handle_interrupts`: merge peripheral latches into IF, then — when
IME permits — service the single highest-priority pending interrupt. -/
def Cpu.handle_interrupts (c : Cpu) (m : Memory) : Cpu × Memory :=
  let m2 := mergeInterruptFlags m
  if c.registers.read_ime = 0 ∧ ¬ c.halted then (c, m2)
  else
    let ie := m2.read_8 0xFFFF
    let if_reg := m2.read_8 0xFF0F
    let pending := ie &&& if_reg
    let c1 := if c.halted ∧ pending ≠ 0 then { c with halted := false } else c
    if c1.registers.read_ime = 0 then (c1, m2)
    else if pending = 0 then (c1, m2)
    else
      match findPendingInterrupt pending with
      | some i => c1.service_interrupt m2 i
      | none => (c1, m2)

/-! ## Post-boot initial state (src/main.rs and `Memory::init_post_boot_state`) -/

/-- `Memory::init_rom_bank`. -/
def Memory.init_rom_bank (m : Memory) : Memory :=
  { m with rom_loaded := true, current_rom_bank := 1 }

/-- `Memory::init_post_boot_state`: the exact sequence of register writes in
the source, then the two direct `main_memory` stores. -/
def Memory.init_post_boot_state (m : Memory) : Memory :=
  let m := m.write_8 0xFF05 0x00
  let m := m.write_8 0xFF06 0x00
  let m := m.write_8 0xFF07 0x00
  let m := m.write_8 0xFF04 0x00
  let m := m.write_8 0xFF10 0x80
  let m := m.write_8 0xFF11 0xBF
  let m := m.write_8 0xFF12 0xF3
  let m := m.write_8 0xFF14 0xBF
  let m := m.write_8 0xFF16 0x3F
  let m := m.write_8 0xFF17 0x00
  let m := m.write_8 0xFF19 0xBF
  let m := m.write_8 0xFF1A 0x7F
  let m := m.write_8 0xFF1B 0xFF
  let m := m.write_8 0xFF1C 0x9F
  let m := m.write_8 0xFF1E 0xBF
  let m := m.write_8 0xFF20 0xFF
  let m := m.write_8 0xFF21 0x00
  let m := m.write_8 0xFF22 0x00
  let m := m.write_8 0xFF23 0xBF
  let m := m.write_8 0xFF24 0x77
  let m := m.write_8 0xFF25 0xF3
  let m := m.write_8 0xFF26 0xF1
  let m := m.write_8 0xFF40 0x91
  let m := m.write_8 0xFF41 0x85
  let m := m.write_8 0xFF42 0x00
  let m := m.write_8 0xFF43 0x00
  let m := m.write_8 0xFF44 0x00
  let m := m.write_8 0xFF45 0x00
  let m := m.write_8 0xFF47 0xFC
  let m := m.write_8 0xFF48 0xFF
  let m := m.write_8 0xFF49 0xFF
  let m := m.write_8 0xFF4A 0x00
  let m := m.write_8 0xFF4B 0x00
  let m := m.write_8 0xFF0F 0xE1
  let m := m.write_8 0xFFFF 0x00
  let m := m.write_8 0xFF01 0x00
  let m := m.write_8 0xFF02 0x7E
  let m := { m with main_memory := setByte m.main_memory 0xFFFF 0x00 }
  { m with main_memory := setByte m.main_memory 0xFF50 0x01 }

/-- The post-boot CPU register state set by the frame loop in src/main.rs. -/
def initCpu : Cpu :=
  let c := Cpu.new
  let c := { c with registers := c.registers.write_r16 Reg16.AF 0x01B0 }
  let c := { c with registers := c.registers.write_r16 Reg16.BC 0x0013 }
  let c := { c with registers := c.registers.write_r16 Reg16.DE 0x00D8 }
  let c := { c with registers := c.registers.write_r16 Reg16.HL 0x014D }
  let c := { c with registers := c.registers.write_r16 Reg16.SP 0xFFFE }
  let c := { c with registers := c.registers.write_r16 Reg16.PC 0x0100 }
  { c with registers := { c.registers with ime := 1 } }

/-- The post-boot memory state built by the frame loop in src/main.rs. -/
def initMem : Memory := Memory.new.init_rom_bank.init_post_boot_state

/-- One `cpu.step(&mut mem)` iteration of the frame loop, as a transition
on the (CPU, bus) pair. -/
def stepState (s : Cpu × Memory) : Cpu × Memory :=
  let r := Cpu.step s.1 s.2
  (r.1, r.2.1)

/-- One `cpu.handle_interrupts(&mut mem)` iteration of the frame loop. -/
def interruptState (s : Cpu × Memory) : Cpu × Memory :=
  Cpu.handle_interrupts s.1 s.2

/-- States reachable by the emulator core: the post-boot state, closed
under instruction steps and interrupt dispatch (the two CPU-state-mutating
operations of the frame loop). -/
inductive Reachable : Cpu × Memory → Prop where
  | init : Reachable (initCpu, initMem)
  | step : ∀ {s}, Reachable s → Reachable (stepState s)
  | interrupts : ∀ {s}, Reachable s → Reachable (interruptState s)

/-! ## Claims -/

/-- The C1 test state: WRAM 0xC000..0xC09F prefilled with 0x01..0xA0
(spec scenario 5), everything else as after construction. -/
def c1Mem : Memory :=
  { Memory.new with main_memory := fun a => if 0xC000 ≤ a ∧ a ≤ 0xC09F then a - 0xC000 + 1 else 0 }

/-- C1: a bus write of V to 0xFF46 performs NO OAM-DMA copy.  The write is
dispatched into the 0xFF40–0xFF4B PPU-register range, whose handler has no
0xFF46 arm, so the whole PPU (OAM included) is left unchanged and reads of
0xFE00/0xFE9F still return 0x00 even though 0xC000/0xC09F hold 0x01/0xA0.
The claim says those reads would return 0x01 and 0xA0. -/
theorem c1_ff46_write_copies_nothing :
    c1Mem.read_8 0xC000 = 0x01 ∧ c1Mem.read_8 0xC09F = 0xA0 ∧
    (c1Mem.write_8 0xFF46 0xC0).read_8 0xFE00 = 0x00 ∧
    (c1Mem.write_8 0xFF46 0xC0).read_8 0xFE9F = 0x00 ∧
    (c1Mem.write_8 0xFF46 0xC0).ppu = c1Mem.ppu :=
  ⟨by decide, by decide, by decide, by decide, rfl⟩

def c2Cpu : Cpu := { Cpu.new with registers := { Cpu.new.registers with pc := 0xC000 } }

def c2Mem : Memory :=
  { Memory.new with main_memory := fun a => if a = 0xC000 then 0xFB else 0 }

/-- C2: executing EI (0xFB) from IME=0 sets IME to 1 at the end of the SAME
step — `step`'s trailing `ei_pending` check consumes the latch the EI
instruction itself just set — whereas the claim (and the comment on
`Cpu::ei` in the source) says IME is still 0 after the EI step and becomes
1 only at the end of the following step. -/
theorem c2_ei_takes_effect_same_step :
    c2Cpu.registers.ime = 0 ∧ c2Mem.read_8 0xC000 = 0xFB ∧
    (Cpu.step c2Cpu c2Mem).1.registers.ime = 1 ∧
    (Cpu.step c2Cpu c2Mem).1.ei_pending = false ∧
    (Cpu.step c2Cpu c2Mem).1.registers.pc = 0xC001 := by decide

def c3MemRet : Memory :=
  { Memory.new with main_memory := fun a =>
      if a = 0xC000 then 0xC0 else if a = 0xD000 then 0x34 else
      if a = 0xD001 then 0x12 else 0 }

def c3CpuTaken : Cpu :=
  { Cpu.new with registers := { Cpu.new.registers with pc := 0xC000, sp := 0xD000 } }

def c3CpuNotTaken : Cpu :=
  { Cpu.new with registers := { Cpu.new.registers with pc := 0xC000, sp := 0xD000, af := 0x80 } }

/-- C3: `step` charges the tabulated value unconditionally — RET NZ (0xC0)
consumes 20 cycles whether the return is taken (Z clear, PC from stack) or
not taken (Z set, PC+1) — so the taken variant does NOT cost 12 more than
the not-taken variant as the claim states. -/
theorem c3_ret_cc_not_taken_also_costs_20 :
    (Cpu.step c3CpuTaken c3MemRet).2.2 = 20 ∧
    (Cpu.step c3CpuTaken c3MemRet).1.registers.pc = 0x1234 ∧
    (Cpu.step c3CpuNotTaken c3MemRet).2.2 = 20 ∧
    (Cpu.step c3CpuNotTaken c3MemRet).1.registers.pc = 0xC001 := by decide

def c6Mem : Memory := { Memory.new with ppu := { Ppu.new with stat := 0x03 } }

/-- C6 counterexample: with STAT's low two bits = 3 (Drawing), the bus write
of 0xAB to VRAM address 0x8000 is NOT ignored: VRAM byte 0 changes from
0x00 to 0xAB, contradicting the claim that mode-3 VRAM writes leave VRAM
unchanged. -/
theorem c6_counterexample :
    c6Mem.ppu.stat &&& STAT_MODE_MASK = 3 ∧
    c6Mem.ppu.vram 0 = 0x00 ∧
    (c6Mem.write_8 0x8000 0xAB).ppu.vram 0 = 0xAB := by decide

/-- C6 amended: a bus write to any VRAM address 0x8000–0x9FFF always stores
the byte into VRAM, regardless of the PPU mode (the source has no mode-3
access gate). -/
theorem c6_amended_vram_write_unconditional (m : Memory) (addr v : Nat)
    (h1 : 0x8000 ≤ addr) (h2 : addr ≤ 0x9FFF) :
    (m.write_8 addr v).ppu.vram (addr - 0x8000) = v % 256 := by
  unfold Memory.write_8
  split_ifs <;> first
    | omega
    | simp [setByte]

/-- Witness for C6's amended claim at a concrete input. -/
theorem c6_amended_witness :
    0x8000 ≤ 0x8000 ∧ 0x8000 ≤ 0x9FFF ∧
    (Memory.new.write_8 0x8000 0xAB).ppu.vram (0x8000 - 0x8000) = 0xAB % 256 :=
  ⟨by decide, by decide,
    c6_amended_vram_write_unconditional Memory.new 0x8000 0xAB (by decide) (by decide)⟩

/-- The C7 test state: two 8×8 sprites at the same screen position, OAM
entries 0 and 1; sprite 0 uses tile 0 (color index 1 everywhere, shade
(0x8B,0xAC,0x0F) under OBP0=0xE4), sprite 1 uses tile 1 (color index 2,
shade (0x30,0x62,0x30)). -/
def c7Ppu : Ppu :=
  { Ppu.new with
    lcdc := 0,
    obp0 := 0xE4,
    oam := fun i =>
      if i = 0 then 16 else if i = 1 then 8 else if i = 2 then 0 else if i = 3 then 0 else
      if i = 4 then 16 else if i = 5 then 8 else if i = 6 then 1 else if i = 7 then 0 else 0,
    vram := fun i =>
      if i < 16 then (if i % 2 = 0 then 0xFF else 0x00)
      else if i < 32 then (if i % 2 = 0 then 0x00 else 0xFF)
      else 0 }

/-- C7: with two overlapping opaque sprites, painting sprite 0 alone leaves
its shade 0x8B at pixel (0,0), but the full OAM-ordered pass leaves sprite
1's shade 0x30 there: the later sprite OVERWRITES the earlier sprite's
non-transparent pixel, contradicting the claim (and the source's own
"lower index has priority" comment). -/
theorem c7_later_sprite_wins_overlap :
    collectSprites c7Ppu 0 8 = [0, 1] ∧
    (drawSprite 0 8 c7Ppu 0).framebuffer 0 = 0x8B ∧
    (render_sprites_line c7Ppu 0).framebuffer 0 = 0x30 := by decide

/-- C8: on the initial bus state (joypad_state = 0xCF), writing 0x20 to
0xFF00 and reading it back returns 0x2F: the write preserved bits 0–3, set
bits 4–5 from the value, and CLEARED bits 6–7; the read returns the stored
byte with bits 6–7 equal to 0, contradicting the claim that bits 6–7
always read as 1 (and the claimed scenario value 0xEE). -/
theorem c8_p1_write_clears_bits_67 :
    Memory.new.joypad_state = 0xCF ∧
    (Memory.new.write_8 0xFF00 0x20).read_8 0xFF00 = 0x2F ∧
    (Memory.new.write_8 0xFF00 0x20).read_8 0xFF00 &&& 0xC0 = 0 := by decide
/-! C5: timer overflow reload delay -/

/-- During the reload delay (counter > 1) a T-cycle only decrements the
delay counter and bumps the internal counter. -/
theorem tickT_delay (u : Timer) (h : 1 < u.overflow_cycles) :
    u.tickT = { u with
      overflow_cycles := u.overflow_cycles - 1,
      internal_counter := (u.internal_counter + 1) % 65536 } := by
  have h0 : u.overflow_cycles > 0 := by omega
  have h1 : ¬ u.overflow_cycles - 1 = 0 := by omega
  simp [Timer.tickT, h0, h1]

/-- On the last delay T-cycle, TIMA is loaded from TMA and the interrupt
latch is raised. -/
theorem tickT_delay_last (u : Timer) (h : u.overflow_cycles = 1) :
    u.tickT = { u with
      overflow_cycles := 0,
      tima := u.tma,
      interrupt_pending := true,
      internal_counter := (u.internal_counter + 1) % 65536 } := by
  simp [Timer.tickT, h]

/-- TIMA and the interrupt latch across the four delay T-cycles that
follow an overflow (`overflow_cycles = 4`). -/
theorem tickT_delay_chain (u : Timer) (h4 : u.overflow_cycles = 4) :
    (u.tickT.tima = u.tima ∧ u.tickT.interrupt_pending = u.interrupt_pending) ∧
    (u.tickT.tickT.tima = u.tima ∧
      u.tickT.tickT.interrupt_pending = u.interrupt_pending) ∧
    (u.tickT.tickT.tickT.tima = u.tima ∧
      u.tickT.tickT.tickT.interrupt_pending = u.interrupt_pending) ∧
    (u.tickT.tickT.tickT.tickT.tima = u.tma ∧
      u.tickT.tickT.tickT.tickT.interrupt_pending = true) := by
  rw [tickT_delay u (by omega)]
  simp only [h4]
  norm_num
  rw [tickT_delay _ (by simp), tickT_delay _ (by simp), tickT_delay_last _ (by simp)]
  simp

/-- The post-boot concrete state of spec scenario 2: TAC=0x05, TIMA=0xFF,
TMA=0x42, internal counter 0xABCC. -/
def c5Timer : Timer :=
  { internal_counter := 0xABCC, tima := 0xFF, tma := 0x42, tac := 0x05,
    interrupt_pending := false, overflow_cycles := 0, tima_overflow_value := 0 }

/-- The same state 3 T-cycles later, just before the falling edge. -/
def c5TimerPre : Timer :=
  { internal_counter := 0xABCF, tima := 0xFF, tma := 0x42, tac := 0x05,
    interrupt_pending := false, overflow_cycles := 0, tima_overflow_value := 0 }

/-- C5: a falling-edge TIMA increment that overflows from 0xFF leaves TIMA
at 0x00 with the interrupt latch untouched and a 4-T-cycle delay pending;
TIMA still reads 0x00 after 1, 2 and 3 further T-cycles, and on the 4th
TIMA is loaded from the (current) TMA and the latch is raised.
Concretely (TAC=0x05, TIMA=0xFF, TMA=0x42, counter 0xABCC): 4 T-cycles in,
TIMA reads 0x00 with the latch still clear, and after 16 T-cycles
(`tick 4` M-cycles) TIMA = 0x42 with the latch true. -/
theorem c5_tima_overflow_reload_delay (t : Timer)
    (hoc : t.overflow_cycles = 0)
    (htima : t.tima = 0xFF)
    (hold : t.get_timer_enable_bit = true)
    (hnew : Timer.get_timer_enable_bit
      { t with internal_counter := (t.internal_counter + 1) % 65536 } = false) :
    (t.tickT.tima = 0 ∧ t.tickT.interrupt_pending = t.interrupt_pending ∧
      t.tickT.overflow_cycles = 4 ∧ t.tickT.tma = t.tma) ∧
    (t.tickT.tickT.tima = 0 ∧ t.tickT.tickT.interrupt_pending = t.interrupt_pending) ∧
    (t.tickT.tickT.tickT.tima = 0 ∧
      t.tickT.tickT.tickT.interrupt_pending = t.interrupt_pending) ∧
    (t.tickT.tickT.tickT.tickT.tima = 0 ∧
      t.tickT.tickT.tickT.tickT.interrupt_pending = t.interrupt_pending) ∧
    (t.tickT.tickT.tickT.tickT.tickT.tima = t.tma ∧
      t.tickT.tickT.tickT.tickT.tickT.interrupt_pending = true) ∧
    ((c5Timer.tickT.tickT.tickT.tickT.tima = 0x00 ∧
      c5Timer.tickT.tickT.tickT.tickT.interrupt_pending = false) ∧
      (c5Timer.tick 4).tima = 0x42 ∧ (c5Timer.tick 4).interrupt_pending = true) := by
  have hnew2 := hnew
  simp only [htima, hoc] at hnew2
  have ht1 : t.tickT =
      (⟨(t.internal_counter + 1) % 65536, 0, t.tma, t.tac,
        t.interrupt_pending, 4, 0⟩ : Timer) := by
    simp [Timer.tickT, Timer.inc_tima, hoc, hold, hnew, hnew2, htima]
  have hchain := tickT_delay_chain
    (⟨(t.internal_counter + 1) % 65536, 0, t.tma, t.tac,
      t.interrupt_pending, 4, 0⟩ : Timer) rfl
  simp only at hchain
  rw [ht1]
  refine ⟨by simp, ?_, ?_, ?_, ?_, ⟨by decide, by decide⟩, by decide, by decide⟩
  · exact ⟨hchain.1.1, hchain.1.2⟩
  · exact ⟨hchain.2.1.1, hchain.2.1.2⟩
  · exact ⟨hchain.2.2.1.1, hchain.2.2.1.2⟩
  · exact ⟨hchain.2.2.2.1, hchain.2.2.2.2⟩

/-- Witness for C5 at the spec's concrete timer state (the falling edge
fires on the T-cycle from counter 0xABCF to 0xABD0). -/
theorem c5_witness :
    (c5TimerPre.overflow_cycles = 0 ∧ c5TimerPre.tima = 0xFF) ∧
    c5TimerPre.tickT.tima = 0 :=
  ⟨⟨by decide, by decide⟩,
    (c5_tima_overflow_reload_delay c5TimerPre
      (by decide) (by decide) (by decide) (by decide)).1.1⟩

/-! C10: serial SC writes -/

/-- C10: an SC write (0xFF02) whose value has bit 7 set appends SB to the
output buffer unless SB is 0x00 or 0x55; the stored SC and all subsequent
SC reads keep bit 7 set; and no serial write ever changes the interrupt
latch. -/
theorem c10_serial_sc_write (s : Serial) (v : Nat) (hv : v < 256)
    (hbit : v &&& 0x80 ≠ 0) :
    ((s.write 0xFF02 v).output_buffer =
      if s.sb ≠ 0 ∧ s.sb ≠ 0x55 then s.output_buffer ++ [s.sb] else s.output_buffer) ∧
    (s.write 0xFF02 v).sc &&& 0x80 = 0x80 ∧
    (s.write 0xFF02 v).read 0xFF02 &&& 0x80 = 0x80 ∧
    (∀ a w, (s.write a w).interrupt_pending = s.interrupt_pending) := by
  have hmod : v % 256 = v := Nat.mod_eq_of_lt hv
  have h7 : v.testBit 7 = true := by
    rcases h : v.testBit 7
    · exfalso
      apply hbit
      have h2 := Nat.and_two_pow v 7
      rw [h] at h2
      simpa using h2
    · rfl
  have hsc : ((v &&& 0x81) ||| 0x7E) &&& 0x80 = 0x80 := by
    have hbt : ((v &&& 0x81) ||| 0x7E).testBit 7 = true := by
      rw [Nat.testBit_lor, Nat.testBit_land, h7]
      decide
    have h2 := Nat.and_two_pow ((v &&& 0x81) ||| 0x7E) 7
    rw [hbt] at h2
    simpa using h2
  have hsc2 : (((v &&& 0x81) ||| 0x7E) ||| 0x7E) &&& 0x80 = 0x80 := by
    have hbt : (((v &&& 0x81) ||| 0x7E) ||| 0x7E).testBit 7 = true := by
      rw [Nat.testBit_lor, Nat.testBit_lor, Nat.testBit_land, h7]
      decide
    have h2 := Nat.and_two_pow (((v &&& 0x81) ||| 0x7E) ||| 0x7E) 7
    rw [hbt] at h2
    simpa using h2
  have hw : s.write 0xFF02 v =
      (if s.sb ≠ 0 ∧ s.sb ≠ 0x55 then
        { s with sc := (v &&& 0x81) ||| 0x7E, output_buffer := s.output_buffer ++ [s.sb] }
      else { s with sc := (v &&& 0x81) ||| 0x7E }) := by
    simp only [Serial.write, hmod]
    norm_num [hbit]
  refine ⟨?_, ?_, ?_, ?_⟩
  · rw [hw]
    split <;> simp
  · rw [hw]
    split <;> simpa using hsc
  · rw [hw]
    simp only [Serial.read]
    norm_num
    split <;> simpa using hsc2
  · intro a w
    simp only [Serial.write]
    split_ifs <;> rfl

/-- Witness for C10 at a concrete serial state. -/
theorem c10_witness :
    (0x81 < 256 ∧ 0x81 &&& 0x80 ≠ 0) ∧
    ((Serial.write { sb := 0x42, sc := 0, interrupt_pending := false, output_buffer := [] }
        0xFF02 0x81).output_buffer =
      if (0x42 : Nat) ≠ 0 ∧ (0x42 : Nat) ≠ 0x55 then ([] : List Nat) ++ [0x42] else []) :=
  ⟨⟨by decide, by decide⟩,
    (c10_serial_sc_write { sb := 0x42, sc := 0, interrupt_pending := false, output_buffer := [] }
      0x81 (by decide) (by decide)).1⟩
/-! C4: interrupt dispatch -/

/-- The boolean test of the priority loop, in terms of `Nat.testBit`. -/
theorem pendingBit_eq_testBit (p i : Nat) :
    ((p &&& (1 <<< i)) != 0) = p.testBit i := by
  have h1 : (1 : Nat) <<< i = 2 ^ i := by rw [Nat.shiftLeft_eq, one_mul]
  rw [h1, Nat.and_two_pow]
  rcases h : p.testBit i
  · simp
  · simp [(Nat.two_pow_pos i).ne']

/-- The loop predicate holds at a set bit. -/
theorem pendingPred_true (p i : Nat) (h : p.testBit i = true) :
    ((p &&& (1 <<< i)) != 0) = true := by
  rw [pendingBit_eq_testBit]
  exact h

/-- The loop predicate fails at a clear bit. -/
theorem pendingPred_false (p i : Nat) (h : p.testBit i = false) :
    ¬ ((p &&& (1 <<< i)) != 0) = true := by
  rw [pendingBit_eq_testBit, h]
  simp

/-- The priority loop finds exactly the lowest set bit among bits 0–4. -/
theorem findPendingInterrupt_spec (p : Nat) (h : p &&& 0x1F ≠ 0) :
    ∃ i, i < 5 ∧ p.testBit i = true ∧ (∀ j, j < i → p.testBit j = false) ∧
      findPendingInterrupt p = some i := by
  have hfl : List.range 5 = [0, 1, 2, 3, 4] := rfl
  by_cases h0 : p.testBit 0 = true
  · refine ⟨0, by omega, h0, fun j hj => absurd hj (Nat.not_lt_zero j), ?_⟩
    unfold findPendingInterrupt
    rw [hfl, show (fun i => ((p &&& (1 <<< i)) != 0)) = (fun i => p.testBit i) from
      funext (pendingBit_eq_testBit p)]
    simp [List.find?, h0]
  · rw [Bool.not_eq_true] at h0
    by_cases h1 : p.testBit 1 = true
    · refine ⟨1, by omega, h1, ?_, ?_⟩
      · intro j hj
        interval_cases j
        exact h0
      · unfold findPendingInterrupt
        rw [hfl, show (fun i => ((p &&& (1 <<< i)) != 0)) = (fun i => p.testBit i) from
          funext (pendingBit_eq_testBit p)]
        simp [List.find?, h0, h1]
    · rw [Bool.not_eq_true] at h1
      by_cases h2 : p.testBit 2 = true
      · refine ⟨2, by omega, h2, ?_, ?_⟩
        · intro j hj
          interval_cases j
          · exact h0
          · exact h1
        · unfold findPendingInterrupt
          rw [hfl, show (fun i => ((p &&& (1 <<< i)) != 0)) = (fun i => p.testBit i) from
            funext (pendingBit_eq_testBit p)]
          simp [List.find?, h0, h1, h2]
      · rw [Bool.not_eq_true] at h2
        by_cases h3 : p.testBit 3 = true
        · refine ⟨3, by omega, h3, ?_, ?_⟩
          · intro j hj
            interval_cases j
            · exact h0
            · exact h1
            · exact h2
          · unfold findPendingInterrupt
            rw [hfl, show (fun i => ((p &&& (1 <<< i)) != 0)) = (fun i => p.testBit i) from
              funext (pendingBit_eq_testBit p)]
            simp [List.find?, h0, h1, h2, h3]
        · rw [Bool.not_eq_true] at h3
          by_cases h4 : p.testBit 4 = true
          · refine ⟨4, by omega, h4, ?_, ?_⟩
            · intro j hj
              interval_cases j
              · exact h0
              · exact h1
              · exact h2
              · exact h3
            · unfold findPendingInterrupt
              rw [hfl, show (fun i => ((p &&& (1 <<< i)) != 0)) = (fun i => p.testBit i) from
                funext (pendingBit_eq_testBit p)]
              simp [List.find?, h0, h1, h2, h3, h4]
          · rw [Bool.not_eq_true] at h4
            exfalso
            apply h
            have hmod : p % 32 = 0 := by
              apply Nat.zero_of_testBit_eq_false
              intro j
              rw [show (32 : Nat) = 2 ^ 5 by norm_num, Nat.testBit_mod_two_pow]
              by_cases hj : j < 5
              · interval_cases j <;> simp [h0, h1, h2, h3, h4]
              · simp [hj]
            have h31 : p &&& 31 = p % 32 := by
              simpa using Nat.and_pow_two_sub_one_eq_mod p 5
            rw [h31, hmod]

/-- The IE & IF value sampled by `handle_interrupts` after the merge phase. -/
def pendingAfterMerge (m : Memory) : Nat :=
  (mergeInterruptFlags m).read_8 0xFFFF &&& (mergeInterruptFlags m).read_8 0xFF0F

/-- C4: with IME set and some interrupt among bits 0–4 of IE & IF pending
(after the merge phase), `handle_interrupts` services exactly the lowest
set bit i: it clears IME, `ei_pending` and `halted`, adds 20 cycles, sets
PC to 0x0040 + 8·i, decrements SP by 2, and the resulting memory is the
merged memory with exactly bit i cleared in IF and PC pushed at the new SP
— in particular at most this one interrupt is serviced. -/
theorem c4_handle_interrupts_services_lowest (c : Cpu) (m : Memory)
    (hime : c.registers.ime = 1)
    (hpend : pendingAfterMerge m &&& 0x1F ≠ 0) :
    ∃ i, i < 5 ∧ (pendingAfterMerge m).testBit i = true ∧
      (∀ j, j < i → (pendingAfterMerge m).testBit j = false) ∧
      (Cpu.handle_interrupts c m).1.registers.ime = 0 ∧
      (Cpu.handle_interrupts c m).1.ei_pending = false ∧
      (Cpu.handle_interrupts c m).1.halted = false ∧
      (Cpu.handle_interrupts c m).1.cycles = c.cycles + 20 ∧
      (Cpu.handle_interrupts c m).1.registers.pc = 0x40 + i * 8 ∧
      (Cpu.handle_interrupts c m).1.registers.sp = (c.registers.sp + 65534) % 65536 ∧
      (Cpu.handle_interrupts c m).2 =
        ((mergeInterruptFlags m).write_8 0xFF0F
            ((mergeInterruptFlags m).read_8 0xFF0F &&& (0xFF ^^^ (1 <<< i)))).write_16
          ((c.registers.sp + 65534) % 65536) c.registers.pc := by
  obtain ⟨i, hi5, hbit, hmin, hfind⟩ := findPendingInterrupt_spec _ hpend
  have hpne : pendingAfterMerge m ≠ 0 := by
    intro h0
    rw [h0] at hpend
    simp at hpend
  have hstep1 : Cpu.handle_interrupts c m =
      Cpu.service_interrupt
        (if c.halted ∧ pendingAfterMerge m ≠ 0 then { c with halted := false } else c)
        (mergeInterruptFlags m) i := by
    simp only [pendingAfterMerge] at hfind hpne ⊢
    simp only [Cpu.handle_interrupts]
    rw [if_neg (by simp [Registers.read_ime, hime])]
    split
    · rw [if_neg (by simp [Registers.read_ime, hime]), hfind]
    · rw [if_neg (by simp [Registers.read_ime, hime]), hfind]
  have hc1reg : (if c.halted ∧ pendingAfterMerge m ≠ 0 then
      { c with halted := false } else c).registers = c.registers := by
    split <;> rfl
  have hc1cyc : (if c.halted ∧ pendingAfterMerge m ≠ 0 then
      { c with halted := false } else c).cycles = c.cycles := by
    split <;> rfl
  refine ⟨i, hi5, hbit, hmin, ?_, ?_, ?_, ?_, ?_, ?_, ?_⟩
  · rw [hstep1]
    simp [Cpu.service_interrupt, Registers.write_r16, Registers.write_ime]
  · rw [hstep1]
    simp [Cpu.service_interrupt, Registers.write_r16, Registers.write_ime]
  · rw [hstep1]
    simp [Cpu.service_interrupt, Registers.write_r16, Registers.write_ime]
  · rw [hstep1]
    simp [Cpu.service_interrupt, Registers.write_r16, Registers.write_ime, hc1cyc]
  · rw [hstep1]
    simp [Cpu.service_interrupt, Registers.write_r16, Registers.write_ime,
      Registers.read_r16, hc1reg]
    omega
  · rw [hstep1]
    simp [Cpu.service_interrupt, Registers.write_r16, Registers.write_ime,
      Registers.read_r16, hc1reg]
  · rw [hstep1]
    simp only [Cpu.service_interrupt, Registers.write_r16, Registers.write_ime,
      Registers.read_r16, hc1reg]
    rw [Nat.mod_mod_of_dvd _ dvd_rfl]

/-- The C4 witness state: IME=1, SP=0xD000, PC=0x1234, IE=IF=0x04 (timer),
no peripheral latches set. -/
def c4Cpu : Cpu :=
  { Cpu.new with registers := { Cpu.new.registers with pc := 0x1234, sp := 0xD000, ime := 1 } }

def c4Mem : Memory :=
  { Memory.new with main_memory :=
      fun a => if a = 0xFFFF then 0x04 else if a = 0xFF0F then 0x04 else 0 }

/-- Witness for C4: a pending timer interrupt (bit 2) is serviced. -/
theorem c4_witness :
    c4Cpu.registers.ime = 1 ∧ pendingAfterMerge c4Mem &&& 0x1F ≠ 0 ∧
    ∃ i, i < 5 ∧ (pendingAfterMerge c4Mem).testBit i = true ∧
      (∀ j, j < i → (pendingAfterMerge c4Mem).testBit j = false) ∧
      (Cpu.handle_interrupts c4Cpu c4Mem).1.registers.ime = 0 ∧
      (Cpu.handle_interrupts c4Cpu c4Mem).1.ei_pending = false ∧
      (Cpu.handle_interrupts c4Cpu c4Mem).1.halted = false ∧
      (Cpu.handle_interrupts c4Cpu c4Mem).1.cycles = c4Cpu.cycles + 20 ∧
      (Cpu.handle_interrupts c4Cpu c4Mem).1.registers.pc = 0x40 + i * 8 ∧
      (Cpu.handle_interrupts c4Cpu c4Mem).1.registers.sp = (c4Cpu.registers.sp + 65534) % 65536 ∧
      (Cpu.handle_interrupts c4Cpu c4Mem).2 =
        ((mergeInterruptFlags c4Mem).write_8 0xFF0F
            ((mergeInterruptFlags c4Mem).read_8 0xFF0F &&& (0xFF ^^^ (1 <<< i)))).write_16
          ((c4Cpu.registers.sp + 65534) % 65536) c4Cpu.registers.pc :=
  ⟨rfl, by decide,
    c4_handle_interrupts_services_lowest c4Cpu c4Mem rfl (by decide)⟩

/-! C9: the low nibble of F is zero in every reachable CPU state -/

/-- Bit-mask/mod bridge for the low nibble. -/
theorem and15_eq_mod (x : Nat) : x &&& 15 = x % 16 := by
  simpa using Nat.and_pow_two_sub_one_eq_mod x 4

/-- `&&&` distributes over `|||` on `Nat`. -/
theorem lor_land_distrib (a b c : Nat) : (a ||| b) &&& c = (a &&& c) ||| (b &&& c) := by
  apply Nat.eq_of_testBit_eq
  intro i
  simp [Nat.testBit_land, Nat.testBit_lor, Bool.and_or_distrib_right]

/-- Writing F masks the low nibble: AF's low nibble is 0 afterwards,
whatever it was before. -/
theorem wr8_F_nib (r : Registers) (v : Nat) :
    (r.write_r8 Reg8.F v).af % 16 = 0 := by
  show ((r.af &&& 0xFF00) ||| ((v % 256) &&& 0xF0)) % 16 = 0
  rw [← and15_eq_mod, lor_land_distrib, Nat.land_assoc, Nat.land_assoc]
  have e1 : (0xFF00 : Nat) &&& 15 = 0 := by decide
  have e2 : (0xF0 : Nat) &&& 15 = 0 := by decide
  rw [e1, e2]
  simp

/-- Writing AF masks with 0xFFF0: AF's low nibble is 0 afterwards. -/
theorem wr16_AF_nib (r : Registers) (v : Nat) :
    (r.write_r16 Reg16.AF v).af % 16 = 0 := by
  show ((v % 65536) &&& 0xFFF0) % 16 = 0
  rw [← and15_eq_mod, Nat.land_assoc]
  have e1 : (0xFFF0 : Nat) &&& 15 = 0 := by decide
  rw [e1]
  simp

/-- Every 8-bit register write preserves "AF's low nibble is 0". -/
theorem write_r8_af_mod (r : Registers) (reg : Reg8) (v : Nat)
    (h : r.af % 16 = 0) : (r.write_r8 reg v).af % 16 = 0 := by
  have h15 : r.af &&& 15 = 0 := by rw [and15_eq_mod]; exact h
  cases reg
  case A =>
    show ((r.af &&& 0xFF) ||| ((v % 256) <<< 8)) % 16 = 0
    rw [← and15_eq_mod, lor_land_distrib, Nat.land_assoc]
    have e1 : (0xFF : Nat) &&& 15 = 15 := by decide
    have e2 : ((v % 256) <<< 8) &&& 15 = 0 := by
      rw [Nat.shiftLeft_eq, and15_eq_mod]
      omega
    rw [e1, e2, h15]
    decide
  case B => exact h
  case C => exact h
  case D => exact h
  case E => exact h
  case H => exact h
  case L => exact h
  case F => exact wr8_F_nib r v

/-- Every 16-bit register write preserves "AF's low nibble is 0". -/
theorem write_r16_af_mod (r : Registers) (reg : Reg16) (v : Nat)
    (h : r.af % 16 = 0) : (r.write_r16 reg v).af % 16 = 0 := by
  cases reg
  case AF => exact wr16_AF_nib r v
  case BC => exact h
  case DE => exact h
  case HL => exact h
  case SP => exact h
  case PC => exact h

/-- `write_operand` preserves "AF's low nibble is 0". -/
theorem write_operand_af (c : Cpu) (m : Memory) (op : Operand) (v : Nat)
    (h : c.registers.af % 16 = 0) :
    (Cpu.write_operand c m op v).1.registers.af % 16 = 0 := by
  cases op
  case Reg8 r => exact write_r8_af_mod _ _ _ h
  case Reg16 r => exact h
  case MemHL => exact h
  case MemBC => exact h
  case MemDE => exact h

/-- `jr_f_e` preserves the invariant (both branches only write PC). -/
theorem jr_f_e_af (c : Cpu) (m : Memory) (cf : Char) (z : Bool)
    (h : c.registers.af % 16 = 0) :
    (Cpu.jr_f_e c m cf z).1.registers.af % 16 = 0 := by
  simp only [Cpu.jr_f_e]
  split_ifs <;> exact h

/-- `jp_f_nn` preserves the invariant. -/
theorem jp_f_nn_af (c : Cpu) (m : Memory) (cf : Char) (z : Bool)
    (h : c.registers.af % 16 = 0) :
    (Cpu.jp_f_nn c m cf z).1.registers.af % 16 = 0 := by
  simp only [Cpu.jp_f_nn]
  split_ifs <;> exact h


/-- `ret_f` preserves the invariant. -/
theorem ret_f_af (c : Cpu) (m : Memory) (cf : Char) (z : Bool)
    (h : c.registers.af % 16 = 0) :
    (Cpu.ret_f c m cf z).1.registers.af % 16 = 0 := by
  simp only [Cpu.ret_f]
  split_ifs <;> exact h

/-- `halt` preserves the invariant (only the halt latches change). -/
theorem halt_af (c : Cpu) (m : Memory) (h : c.registers.af % 16 = 0) :
    (c.halt m).registers.af % 16 = 0 := by
  simp only [Cpu.halt]
  split_ifs <;> exact h

/-- Non-AF 16-bit register writes leave `af` untouched (BC). -/
theorem wr16_bc_af (r : Registers) (v : Nat) : (r.write_r16 Reg16.BC v).af = r.af := rfl

/-- Non-AF 16-bit register writes leave `af` untouched (DE). -/
theorem wr16_de_af (r : Registers) (v : Nat) : (r.write_r16 Reg16.DE v).af = r.af := rfl

/-- Non-AF 16-bit register writes leave `af` untouched (HL). -/
theorem wr16_hl_af (r : Registers) (v : Nat) : (r.write_r16 Reg16.HL v).af = r.af := rfl

/-- Non-AF 16-bit register writes leave `af` untouched (SP). -/
theorem wr16_sp_af (r : Registers) (v : Nat) : (r.write_r16 Reg16.SP v).af = r.af := rfl

/-- Non-AF 16-bit register writes leave `af` untouched (PC). -/
theorem wr16_pc_af (r : Registers) (v : Nat) : (r.write_r16 Reg16.PC v).af = r.af := rfl

/-- Writing IME leaves `af` untouched. -/
theorem wime_af (r : Registers) (v : Nat) : (r.write_ime v).af = r.af := rfl

/-- `call_f_nn` preserves the invariant (SP/PC writes only). -/
theorem call_f_nn_af (c : Cpu) (m : Memory) (cf : Char) (z : Bool)
    (h : c.registers.af % 16 = 0) :
    (Cpu.call_f_nn c m cf z).1.registers.af % 16 = 0 := by
  simp only [Cpu.call_f_nn]
  split <;> split <;> (simp only [wr16_sp_af, wr16_pc_af]; exact h)

/-- `inc_r8` ends by writing F, so the invariant holds unconditionally. -/
theorem inc_r8_af (c : Cpu) (reg : Reg8) : (c.inc_r8 reg).registers.af % 16 = 0 := by
  simp only [Cpu.inc_r8]
  exact wr8_F_nib _ _

/-- `dec_r8` ends by writing F. -/
theorem dec_r8_af (c : Cpu) (reg : Reg8) : (c.dec_r8 reg).registers.af % 16 = 0 := by
  simp only [Cpu.dec_r8]
  exact wr8_F_nib _ _

/-- `inc_mem` ends by writing F. -/
theorem inc_mem_af (c : Cpu) (m : Memory) (reg : Reg16) :
    (c.inc_mem m reg).1.registers.af % 16 = 0 := by
  simp only [Cpu.inc_mem]
  exact wr8_F_nib _ _

/-- `dec_mem` ends by writing F. -/
theorem dec_mem_af (c : Cpu) (m : Memory) (reg : Reg16) :
    (c.dec_mem m reg).1.registers.af % 16 = 0 := by
  simp only [Cpu.dec_mem]
  exact wr8_F_nib _ _

/-- `rlca` ends by writing F. -/
theorem rlca_af (c : Cpu) : c.rlca.registers.af % 16 = 0 := by
  simp only [Cpu.rlca]
  exact wr8_F_nib _ _

/-- `rla` ends by writing F. -/
theorem rla_af (c : Cpu) : c.rla.registers.af % 16 = 0 := by
  simp only [Cpu.rla]
  exact wr8_F_nib _ _

/-- `rrca` ends by writing F. -/
theorem rrca_af (c : Cpu) : c.rrca.registers.af % 16 = 0 := by
  simp only [Cpu.rrca]
  exact wr8_F_nib _ _

/-- `rra` ends by writing F. -/
theorem rra_af (c : Cpu) : c.rra.registers.af % 16 = 0 := by
  simp only [Cpu.rra]
  exact wr8_F_nib _ _

/-- `add_hl` ends by writing F. -/
theorem add_hl_af (c : Cpu) (reg : Reg16) : (c.add_hl reg).registers.af % 16 = 0 := by
  simp only [Cpu.add_hl]
  exact wr8_F_nib _ _

/-- `add_a_value` ends by writing F. -/
theorem add_a_value_af (c : Cpu) (v : Nat) : (c.add_a_value v).registers.af % 16 = 0 := by
  simp only [Cpu.add_a_value]
  exact wr8_F_nib _ _

/-- `adc_a_value` ends by writing F. -/
theorem adc_a_value_af (c : Cpu) (v : Nat) : (c.adc_a_value v).registers.af % 16 = 0 := by
  simp only [Cpu.adc_a_value]
  exact wr8_F_nib _ _

/-- `sub_a_value` ends by writing F. -/
theorem sub_a_value_af (c : Cpu) (v : Nat) : (c.sub_a_value v).registers.af % 16 = 0 := by
  simp only [Cpu.sub_a_value]
  exact wr8_F_nib _ _

/-- `sbc_a_value` ends by writing F. -/
theorem sbc_a_value_af (c : Cpu) (v : Nat) : (c.sbc_a_value v).registers.af % 16 = 0 := by
  simp only [Cpu.sbc_a_value]
  exact wr8_F_nib _ _

/-- `and_a_value` ends by writing F. -/
theorem and_a_value_af (c : Cpu) (v : Nat) : (c.and_a_value v).registers.af % 16 = 0 := by
  simp only [Cpu.and_a_value]
  exact wr8_F_nib _ _

/-- `xor_a_value` ends by writing F. -/
theorem xor_a_value_af (c : Cpu) (v : Nat) : (c.xor_a_value v).registers.af % 16 = 0 := by
  simp only [Cpu.xor_a_value]
  exact wr8_F_nib _ _

/-- `or_a_value` ends by writing F. -/
theorem or_a_value_af (c : Cpu) (v : Nat) : (c.or_a_value v).registers.af % 16 = 0 := by
  simp only [Cpu.or_a_value]
  exact wr8_F_nib _ _

/-- `cp_a_value` ends by writing F. -/
theorem cp_a_value_af (c : Cpu) (v : Nat) : (c.cp_a_value v).registers.af % 16 = 0 := by
  simp only [Cpu.cp_a_value]
  exact wr8_F_nib _ _

/-- `daa` writes F and then A, both maskings preserve the invariant. -/
theorem daa_af (c : Cpu) : c.daa.registers.af % 16 = 0 := by
  simp only [Cpu.daa]
  exact write_r8_af_mod _ _ _ (wr8_F_nib _ _)

/-- `cpl` ends by writing F. -/
theorem cpl_af (c : Cpu) : c.cpl.registers.af % 16 = 0 := by
  simp only [Cpu.cpl]
  exact wr8_F_nib _ _

/-- `scf` ends by writing F. -/
theorem scf_af (c : Cpu) : c.scf.registers.af % 16 = 0 := by
  simp only [Cpu.scf]
  exact wr8_F_nib _ _

/-- `ccf` ends by writing F. -/
theorem ccf_af (c : Cpu) : c.ccf.registers.af % 16 = 0 := by
  simp only [Cpu.ccf]
  exact wr8_F_nib _ _

/-- `ld_sp_e` ends by writing F. -/
theorem ld_sp_e_af (c : Cpu) (m : Memory) : (c.ld_sp_e m).1.registers.af % 16 = 0 := by
  simp only [Cpu.ld_sp_e]
  exact wr8_F_nib _ _

/-- `add_sp_e` ends by writing F. -/
theorem add_sp_e_af (c : Cpu) (m : Memory) : (c.add_sp_e m).1.registers.af % 16 = 0 := by
  simp only [Cpu.add_sp_e]
  exact wr8_F_nib _ _

/-- `ld_r16_nn` preserves the invariant (AF loads are masked). -/
theorem ld_r16_nn_af (c : Cpu) (m : Memory) (reg : Reg16)
    (h : c.registers.af % 16 = 0) : (c.ld_r16_nn m reg).1.registers.af % 16 = 0 := by
  simp only [Cpu.ld_r16_nn]
  exact write_r16_af_mod _ _ _ h

/-- `ld_r8_n` preserves the invariant. -/
theorem ld_r8_n_af (c : Cpu) (m : Memory) (reg : Reg8)
    (h : c.registers.af % 16 = 0) : (c.ld_r8_n m reg).1.registers.af % 16 = 0 := by
  simp only [Cpu.ld_r8_n]
  exact write_r8_af_mod _ _ _ h

/-- `ld_operand` preserves the invariant. -/
theorem ld_operand_af (c : Cpu) (m : Memory) (dest src : Operand)
    (h : c.registers.af % 16 = 0) :
    (c.ld_operand m dest src).1.registers.af % 16 = 0 := by
  simp only [Cpu.ld_operand]
  exact write_operand_af _ _ _ _ h

/-- `ldh_a_n` preserves the invariant (A write). -/
theorem ldh_a_n_af (c : Cpu) (m : Memory) (h : c.registers.af % 16 = 0) :
    (c.ldh_a_n m).1.registers.af % 16 = 0 := by
  simp only [Cpu.ldh_a_n]
  exact write_r8_af_mod _ _ _ h

/-- `ldh_a_c` preserves the invariant (A write). -/
theorem ldh_a_c_af (c : Cpu) (m : Memory) (h : c.registers.af % 16 = 0) :
    (c.ldh_a_c m).1.registers.af % 16 = 0 := by
  simp only [Cpu.ldh_a_c]
  exact write_r8_af_mod _ _ _ h

/-- `ld_a_nn` preserves the invariant (A write). -/
theorem ld_a_nn_af (c : Cpu) (m : Memory) (h : c.registers.af % 16 = 0) :
    (c.ld_a_nn m).1.registers.af % 16 = 0 := by
  simp only [Cpu.ld_a_nn]
  exact write_r8_af_mod _ _ _ h

/-- `pop` preserves the invariant (AF pops are masked). -/
theorem pop_af (c : Cpu) (m : Memory) (reg : Reg16)
    (h : c.registers.af % 16 = 0) : (c.pop m reg).1.registers.af % 16 = 0 := by
  simp only [Cpu.pop, wr16_sp_af]
  exact write_r16_af_mod _ _ _ h

/-- `push` only writes SP (and memory). -/
theorem push_af (c : Cpu) (m : Memory) (reg : Reg16)
    (h : c.registers.af % 16 = 0) : (c.push m reg).1.registers.af % 16 = 0 := by
  simp only [Cpu.push, wr16_sp_af]
  exact h

/-- `inc_r16` preserves the invariant. -/
theorem inc_r16_af (c : Cpu) (reg : Reg16) (h : c.registers.af % 16 = 0) :
    (c.inc_r16 reg).registers.af % 16 = 0 := by
  simp only [Cpu.inc_r16]
  exact write_r16_af_mod _ _ _ h

/-- `dec_r16` preserves the invariant. -/
theorem dec_r16_af (c : Cpu) (reg : Reg16) (h : c.registers.af % 16 = 0) :
    (c.dec_r16 reg).registers.af % 16 = 0 := by
  simp only [Cpu.dec_r16]
  exact write_r16_af_mod _ _ _ h

/-- `jr_e` only writes PC. -/
theorem jr_e_af (c : Cpu) (m : Memory) (h : c.registers.af % 16 = 0) :
    (c.jr_e m).1.registers.af % 16 = 0 := by
  simp only [Cpu.jr_e, wr16_pc_af]
  exact h

/-- `jp_nn` only writes PC. -/
theorem jp_nn_af (c : Cpu) (m : Memory) (h : c.registers.af % 16 = 0) :
    (c.jp_nn m).1.registers.af % 16 = 0 := by
  simp only [Cpu.jp_nn, wr16_pc_af]
  exact h

/-- `jp_hl` only writes PC. -/
theorem jp_hl_af (c : Cpu) (h : c.registers.af % 16 = 0) :
    c.jp_hl.registers.af % 16 = 0 := by
  simp only [Cpu.jp_hl, wr16_pc_af]
  exact h

/-- `call_nn` only writes SP and PC (and memory). -/
theorem call_nn_af (c : Cpu) (m : Memory) (h : c.registers.af % 16 = 0) :
    (c.call_nn m).1.registers.af % 16 = 0 := by
  simp only [Cpu.call_nn, wr16_sp_af, wr16_pc_af]
  exact h

/-- `rst` only writes SP and PC (and memory). -/
theorem rst_af (c : Cpu) (m : Memory) (v : Nat) (h : c.registers.af % 16 = 0) :
    (c.rst m v).1.registers.af % 16 = 0 := by
  simp only [Cpu.rst, wr16_sp_af, wr16_pc_af]
  exact h

/-- `ret` only writes SP and PC. -/
theorem ret_af (c : Cpu) (m : Memory) (h : c.registers.af % 16 = 0) :
    (c.ret m).1.registers.af % 16 = 0 := by
  simp only [Cpu.ret, wr16_sp_af, wr16_pc_af]
  exact h

/-- `reti` only writes SP, PC and IME. -/
theorem reti_af (c : Cpu) (m : Memory) (h : c.registers.af % 16 = 0) :
    (c.reti m).1.registers.af % 16 = 0 := by
  simp only [Cpu.reti, wime_af, wr16_sp_af, wr16_pc_af]
  exact h

/-- The unknown-opcode arm only advances PC. -/
theorem unknown_op_af (c : Cpu) (h : c.registers.af % 16 = 0) :
    c.unknown_op.registers.af % 16 = 0 := by
  simp only [Cpu.unknown_op, wr16_pc_af]
  exact h

/-- `ld_sp_hl` only writes SP. -/
theorem ld_sp_hl_af (c : Cpu) (m : Memory) (h : c.registers.af % 16 = 0) :
    (c.ld_sp_hl m).1.registers.af % 16 = 0 := by
  simp only [Cpu.ld_sp_hl, wr16_sp_af]
  exact h

/-- `ldi_hl_a` is an `ld_operand` followed by an HL increment. -/
theorem ldi_hl_a_af (c : Cpu) (m : Memory) (h : c.registers.af % 16 = 0) :
    (c.ldi_hl_a m).1.registers.af % 16 = 0 := by
  simp only [Cpu.ldi_hl_a]
  exact inc_r16_af _ _ (ld_operand_af _ _ _ _ h)

/-- `ldi_a_hl` is an `ld_operand` followed by an HL increment. -/
theorem ldi_a_hl_af (c : Cpu) (m : Memory) (h : c.registers.af % 16 = 0) :
    (c.ldi_a_hl m).1.registers.af % 16 = 0 := by
  simp only [Cpu.ldi_a_hl]
  exact inc_r16_af _ _ (ld_operand_af _ _ _ _ h)

/-- `ldd_hl_a` is an `ld_operand` followed by an HL decrement. -/
theorem ldd_hl_a_af (c : Cpu) (m : Memory) (h : c.registers.af % 16 = 0) :
    (c.ldd_hl_a m).1.registers.af % 16 = 0 := by
  simp only [Cpu.ldd_hl_a]
  exact dec_r16_af _ _ (ld_operand_af _ _ _ _ h)

/-- `ldd_a_hl` is an `ld_operand` followed by an HL decrement. -/
theorem ldd_a_hl_af (c : Cpu) (m : Memory) (h : c.registers.af % 16 = 0) :
    (c.ldd_a_hl m).1.registers.af % 16 = 0 := by
  simp only [Cpu.ldd_a_hl]
  exact dec_r16_af _ _ (ld_operand_af _ _ _ _ h)

/-- `add_a_r` delegates to `add_a_value`. -/
theorem add_a_r_af (c : Cpu) (m : Memory) (op : Operand) :
    (c.add_a_r m op).1.registers.af % 16 = 0 := by
  simp only [Cpu.add_a_r]
  exact add_a_value_af _ _

/-- `add_a_n` delegates to `add_a_value`. -/
theorem add_a_n_af (c : Cpu) (m : Memory) :
    (c.add_a_n m).1.registers.af % 16 = 0 := by
  simp only [Cpu.add_a_n]
  exact add_a_value_af _ _

/-- `adc_a_r` delegates to `adc_a_value`. -/
theorem adc_a_r_af (c : Cpu) (m : Memory) (op : Operand) :
    (c.adc_a_r m op).1.registers.af % 16 = 0 := by
  simp only [Cpu.adc_a_r]
  exact adc_a_value_af _ _

/-- `adc_a_n` delegates to `adc_a_value`. -/
theorem adc_a_n_af (c : Cpu) (m : Memory) :
    (c.adc_a_n m).1.registers.af % 16 = 0 := by
  simp only [Cpu.adc_a_n]
  exact adc_a_value_af _ _

/-- `sub_a_r` delegates to `sub_a_value`. -/
theorem sub_a_r_af (c : Cpu) (m : Memory) (op : Operand) :
    (c.sub_a_r m op).1.registers.af % 16 = 0 := by
  simp only [Cpu.sub_a_r]
  exact sub_a_value_af _ _

/-- `sub_a_n` delegates to `sub_a_value`. -/
theorem sub_a_n_af (c : Cpu) (m : Memory) :
    (c.sub_a_n m).1.registers.af % 16 = 0 := by
  simp only [Cpu.sub_a_n]
  exact sub_a_value_af _ _

/-- `sbc_a_r` delegates to `sbc_a_value`. -/
theorem sbc_a_r_af (c : Cpu) (m : Memory) (op : Operand) :
    (c.sbc_a_r m op).1.registers.af % 16 = 0 := by
  simp only [Cpu.sbc_a_r]
  exact sbc_a_value_af _ _

/-- `sbc_a_n` delegates to `sbc_a_value`. -/
theorem sbc_a_n_af (c : Cpu) (m : Memory) :
    (c.sbc_a_n m).1.registers.af % 16 = 0 := by
  simp only [Cpu.sbc_a_n]
  exact sbc_a_value_af _ _

/-- `and_a_r` delegates to `and_a_value`. -/
theorem and_a_r_af (c : Cpu) (m : Memory) (op : Operand) :
    (c.and_a_r m op).1.registers.af % 16 = 0 := by
  simp only [Cpu.and_a_r]
  exact and_a_value_af _ _

/-- `and_a_n` delegates to `and_a_value`. -/
theorem and_a_n_af (c : Cpu) (m : Memory) :
    (c.and_a_n m).1.registers.af % 16 = 0 := by
  simp only [Cpu.and_a_n]
  exact and_a_value_af _ _

/-- `xor_a_r` delegates to `xor_a_value`. -/
theorem xor_a_r_af (c : Cpu) (m : Memory) (op : Operand) :
    (c.xor_a_r m op).1.registers.af % 16 = 0 := by
  simp only [Cpu.xor_a_r]
  exact xor_a_value_af _ _

/-- `xor_a_n` delegates to `xor_a_value`. -/
theorem xor_a_n_af (c : Cpu) (m : Memory) :
    (c.xor_a_n m).1.registers.af % 16 = 0 := by
  simp only [Cpu.xor_a_n]
  exact xor_a_value_af _ _

/-- `or_a_r` delegates to `or_a_value`. -/
theorem or_a_r_af (c : Cpu) (m : Memory) (op : Operand) :
    (c.or_a_r m op).1.registers.af % 16 = 0 := by
  simp only [Cpu.or_a_r]
  exact or_a_value_af _ _

/-- `or_a_n` delegates to `or_a_value`. -/
theorem or_a_n_af (c : Cpu) (m : Memory) :
    (c.or_a_n m).1.registers.af % 16 = 0 := by
  simp only [Cpu.or_a_n]
  exact or_a_value_af _ _

/-- `cp_a_r` delegates to `cp_a_value`. -/
theorem cp_a_r_af (c : Cpu) (m : Memory) (op : Operand) :
    (c.cp_a_r m op).1.registers.af % 16 = 0 := by
  simp only [Cpu.cp_a_r]
  exact cp_a_value_af _ _

/-- `cp_a_n` delegates to `cp_a_value`. -/
theorem cp_a_n_af (c : Cpu) (m : Memory) :
    (c.cp_a_n m).1.registers.af % 16 = 0 := by
  simp only [Cpu.cp_a_n]
  exact cp_a_value_af _ _

/-- `rlc_r` ends with an operand write after an F write. -/
theorem rlc_r_af (c : Cpu) (m : Memory) (op : Operand) :
    (c.rlc_r m op).1.registers.af % 16 = 0 := by
  simp only [Cpu.rlc_r]
  exact write_operand_af _ _ _ _ (wr8_F_nib _ _)

/-- `rrc_r` ends with an operand write after an F write. -/
theorem rrc_r_af (c : Cpu) (m : Memory) (op : Operand) :
    (c.rrc_r m op).1.registers.af % 16 = 0 := by
  simp only [Cpu.rrc_r]
  exact write_operand_af _ _ _ _ (wr8_F_nib _ _)

/-- `rl_r` ends with an operand write after an F write. -/
theorem rl_r_af (c : Cpu) (m : Memory) (op : Operand) :
    (c.rl_r m op).1.registers.af % 16 = 0 := by
  simp only [Cpu.rl_r]
  exact write_operand_af _ _ _ _ (wr8_F_nib _ _)

/-- `rr_r` ends with an operand write after an F write. -/
theorem rr_r_af (c : Cpu) (m : Memory) (op : Operand) :
    (c.rr_r m op).1.registers.af % 16 = 0 := by
  simp only [Cpu.rr_r]
  exact write_operand_af _ _ _ _ (wr8_F_nib _ _)

/-- `sla_r` ends with an operand write after an F write. -/
theorem sla_r_af (c : Cpu) (m : Memory) (op : Operand) :
    (c.sla_r m op).1.registers.af % 16 = 0 := by
  simp only [Cpu.sla_r]
  exact write_operand_af _ _ _ _ (wr8_F_nib _ _)

/-- `sra_r` ends with an operand write after an F write. -/
theorem sra_r_af (c : Cpu) (m : Memory) (op : Operand) :
    (c.sra_r m op).1.registers.af % 16 = 0 := by
  simp only [Cpu.sra_r]
  exact write_operand_af _ _ _ _ (wr8_F_nib _ _)

/-- `swap_r` ends with an operand write after an F write. -/
theorem swap_r_af (c : Cpu) (m : Memory) (op : Operand) :
    (c.swap_r m op).1.registers.af % 16 = 0 := by
  simp only [Cpu.swap_r]
  exact write_operand_af _ _ _ _ (wr8_F_nib _ _)

/-- `srl_r` ends with an operand write after an F write. -/
theorem srl_r_af (c : Cpu) (m : Memory) (op : Operand) :
    (c.srl_r m op).1.registers.af % 16 = 0 := by
  simp only [Cpu.srl_r]
  exact write_operand_af _ _ _ _ (wr8_F_nib _ _)

/-- `bit_n_r` ends by writing F. -/
theorem bit_n_r_af (c : Cpu) (m : Memory) (op : Operand) (n : Nat) :
    (c.bit_n_r m op n).1.registers.af % 16 = 0 := by
  simp only [Cpu.bit_n_r]
  exact wr8_F_nib _ _

/-- `res_n_r` only writes the operand. -/
theorem res_n_r_af (c : Cpu) (m : Memory) (op : Operand) (n : Nat)
    (h : c.registers.af % 16 = 0) :
    (c.res_n_r m op n).1.registers.af % 16 = 0 := by
  simp only [Cpu.res_n_r]
  exact write_operand_af _ _ _ _ h

/-- `set_n_r` only writes the operand. -/
theorem set_n_r_af (c : Cpu) (m : Memory) (op : Operand) (n : Nat)
    (h : c.registers.af % 16 = 0) :
    (c.set_n_r m op n).1.registers.af % 16 = 0 := by
  simp only [Cpu.set_n_r]
  exact write_operand_af _ _ _ _ h

/-- The CB dispatch chain preserves the invariant for any fetched byte. -/
theorem cb_chain_af (c : Cpu) (m : Memory) (b : Nat) (h : c.registers.af % 16 = 0) :
    ((if b ≤ 0x07 then c.rlc_r m (Operand.from_index (b &&& 0x07))
      else if b ≤ 0x0F then c.rrc_r m (Operand.from_index (b &&& 0x07))
      else if b ≤ 0x17 then c.rl_r m (Operand.from_index (b &&& 0x07))
      else if b ≤ 0x1F then c.rr_r m (Operand.from_index (b &&& 0x07))
      else if b ≤ 0x27 then c.sla_r m (Operand.from_index (b &&& 0x07))
      else if b ≤ 0x2F then c.sra_r m (Operand.from_index (b &&& 0x07))
      else if b ≤ 0x37 then c.swap_r m (Operand.from_index (b &&& 0x07))
      else if b ≤ 0x3F then c.srl_r m (Operand.from_index (b &&& 0x07))
      else if b ≤ 0x7F then c.bit_n_r m (Operand.from_index (b &&& 0x07)) ((b >>> 3) &&& 0x07)
      else if b ≤ 0xBF then c.res_n_r m (Operand.from_index (b &&& 0x07)) ((b >>> 3) &&& 0x07)
      else c.set_n_r m (Operand.from_index (b &&& 0x07)) ((b >>> 3) &&& 0x07)).1.registers.af
      % 16 = 0) := by
  split
  · exact rlc_r_af _ _ _
  split
  · exact rrc_r_af _ _ _
  split
  · exact rl_r_af _ _ _
  split
  · exact rr_r_af _ _ _
  split
  · exact sla_r_af _ _ _
  split
  · exact sra_r_af _ _ _
  split
  · exact swap_r_af _ _ _
  split
  · exact srl_r_af _ _ _
  split
  · exact bit_n_r_af _ _ _ _
  split
  · exact res_n_r_af _ _ _ _ h
  exact set_n_r_af _ _ _ _ h

/-- `call_cb` preserves the invariant: instantiate the chain lemma at the
fetched CB opcode. -/
theorem call_cb_af (c : Cpu) (m : Memory) (h : c.registers.af % 16 = 0) :
    (Cpu.call_cb c m).1.registers.af % 16 = 0 :=
  cb_chain_af c m (m.read_8 ((c.registers.read_r16 Reg16.PC + 1) % 65536)) h


set_option maxHeartbeats 4000000 in
/-- `execute` preserves the invariant for every opcode: each arm is one of
the per-instruction lemmas above. -/
theorem execute_af (c : Cpu) (m : Memory) (op : Nat)
    (h : c.registers.af % 16 = 0) :
    (Cpu.execute c m op).1.registers.af % 16 = 0 := by
  unfold Cpu.execute
  split
  · exact h
  · exact ld_r16_nn_af _ _ _ h
  · exact ld_operand_af _ _ _ _ h
  · exact inc_r16_af _ _ h
  · exact inc_r8_af _ _
  · exact dec_r8_af _ _
  · exact ld_r8_n_af _ _ _ h
  · exact rlca_af _
  · exact h
  · exact add_hl_af _ _
  · exact ld_operand_af _ _ _ _ h
  · exact dec_r16_af _ _ h
  · exact inc_r8_af _ _
  · exact dec_r8_af _ _
  · exact ld_r8_n_af _ _ _ h
  · exact rrca_af _
  · exact h
  · exact ld_r16_nn_af _ _ _ h
  · exact ld_operand_af _ _ _ _ h
  · exact inc_r16_af _ _ h
  · exact inc_r8_af _ _
  · exact dec_r8_af _ _
  · exact ld_r8_n_af _ _ _ h
  · exact rla_af _
  · exact jr_e_af _ _ h
  · exact add_hl_af _ _
  · exact ld_operand_af _ _ _ _ h
  · exact dec_r16_af _ _ h
  · exact inc_r8_af _ _
  · exact dec_r8_af _ _
  · exact ld_r8_n_af _ _ _ h
  · exact rra_af _
  · exact jr_f_e_af _ _ _ _ h
  · exact ld_r16_nn_af _ _ _ h
  · exact ldi_hl_a_af _ _ h
  · exact inc_r16_af _ _ h
  · exact inc_r8_af _ _
  · exact dec_r8_af _ _
  · exact ld_r8_n_af _ _ _ h
  · exact daa_af _
  · exact jr_f_e_af _ _ _ _ h
  · exact add_hl_af _ _
  · exact ldi_a_hl_af _ _ h
  · exact dec_r16_af _ _ h
  · exact inc_r8_af _ _
  · exact dec_r8_af _ _
  · exact ld_r8_n_af _ _ _ h
  · exact cpl_af _
  · exact jr_f_e_af _ _ _ _ h
  · exact ld_r16_nn_af _ _ _ h
  · exact ldd_hl_a_af _ _ h
  · exact inc_r16_af _ _ h
  · exact inc_mem_af _ _ _
  · exact dec_mem_af _ _ _
  · exact h
  · exact scf_af _
  · exact jr_f_e_af _ _ _ _ h
  · exact add_hl_af _ _
  · exact ldd_a_hl_af _ _ h
  · exact dec_r16_af _ _ h
  · exact inc_r8_af _ _
  · exact dec_r8_af _ _
  · exact ld_r8_n_af _ _ _ h
  · exact ccf_af _
  · exact halt_af _ _ h
  · exact ret_f_af _ _ _ _ h
  · exact pop_af _ _ _ h
  · exact jp_f_nn_af _ _ _ _ h
  · exact jp_nn_af _ _ h
  · exact call_f_nn_af _ _ _ _ h
  · exact push_af _ _ _ h
  · exact add_a_n_af _ _
  · exact rst_af _ _ _ h
  · exact ret_f_af _ _ _ _ h
  · exact ret_af _ _ h
  · exact jp_f_nn_af _ _ _ _ h
  · exact call_cb_af _ _ h
  · exact call_f_nn_af _ _ _ _ h
  · exact call_nn_af _ _ h
  · exact adc_a_n_af _ _
  · exact rst_af _ _ _ h
  · exact ret_f_af _ _ _ _ h
  · exact pop_af _ _ _ h
  · exact jp_f_nn_af _ _ _ _ h
  · exact call_f_nn_af _ _ _ _ h
  · exact push_af _ _ _ h
  · exact sub_a_n_af _ _
  · exact rst_af _ _ _ h
  · exact ret_f_af _ _ _ _ h
  · exact reti_af _ _ h
  · exact jp_f_nn_af _ _ _ _ h
  · exact call_f_nn_af _ _ _ _ h
  · exact sbc_a_n_af _ _
  · exact rst_af _ _ _ h
  · exact h
  · exact pop_af _ _ _ h
  · exact h
  · exact push_af _ _ _ h
  · exact and_a_n_af _ _
  · exact rst_af _ _ _ h
  · exact add_sp_e_af _ _
  · exact jp_hl_af _ h
  · exact h
  · exact xor_a_n_af _ _
  · exact rst_af _ _ _ h
  · exact ldh_a_n_af _ _ h
  · exact pop_af _ _ _ h
  · exact ldh_a_c_af _ _ h
  · exact h
  · exact push_af _ _ _ h
  · exact or_a_n_af _ _
  · exact rst_af _ _ _ h
  · exact ld_sp_e_af _ _
  · exact ld_sp_hl_af _ _ h
  · exact ld_a_nn_af _ _ h
  · exact h
  · exact cp_a_n_af _ _
  · exact rst_af _ _ _ h
  · split
    · exact ld_operand_af _ _ _ _ h
    split
    · exact add_a_r_af _ _ _
    split
    · exact adc_a_r_af _ _ _
    split
    · exact sub_a_r_af _ _ _
    split
    · exact sbc_a_r_af _ _ _
    split
    · exact and_a_r_af _ _ _
    split
    · exact xor_a_r_af _ _ _
    split
    · exact or_a_r_af _ _ _
    split
    · exact cp_a_r_af _ _ _
    exact unknown_op_af _ h

/-- `handle_post_instruction` only advances PC (or drops the HALT-bug
latch), so the invariant is preserved. -/
theorem handle_post_af (c : Cpu) (m : Memory) (op : Nat)
    (h : c.registers.af % 16 = 0) :
    (Cpu.handle_post_instruction c m op).1.registers.af % 16 = 0 := by
  simp only [Cpu.handle_post_instruction]
  split
  · split
    · exact h
    · simp only [wr16_pc_af]; exact h
  · exact h

/-- The step body preserves the invariant: execute, post-instruction
bookkeeping, and the EI latch (an IME write) all preserve it. -/
theorem stepBody_af (c : Cpu) (m : Memory) (h : c.registers.af % 16 = 0) :
    (Cpu.stepBody c m).1.registers.af % 16 = 0 := by
  simp only [Cpu.stepBody]
  split
  · simp only [wime_af]
    exact handle_post_af _ _ _ (execute_af _ _ _ h)
  · exact handle_post_af _ _ _ (execute_af _ _ _ h)

/-- `step` preserves the invariant in all three paths (halted idle,
halt-exit, normal fetch/execute). -/
theorem step_af (c : Cpu) (m : Memory) (h : c.registers.af % 16 = 0) :
    (Cpu.step c m).1.registers.af % 16 = 0 := by
  simp only [Cpu.step]
  split
  · split
    · exact stepBody_af _ _ h
    · exact h
  · exact stepBody_af _ _ h

/-- `service_interrupt` writes IME, SP and PC only. -/
theorem service_interrupt_af (c : Cpu) (m : Memory) (i : Nat)
    (h : c.registers.af % 16 = 0) :
    (c.service_interrupt m i).1.registers.af % 16 = 0 := by
  simp only [Cpu.service_interrupt, wr16_sp_af, wr16_pc_af, wime_af]
  exact h

/-- The dispatch tail of `handle_interrupts` preserves the invariant for
any resolved `c1` and pending mask. -/
theorem hi_tail_af (c1 : Cpu) (m2 : Memory) (pending : Nat)
    (h : c1.registers.af % 16 = 0) :
    ((if c1.registers.read_ime = 0 then (c1, m2)
      else if pending = 0 then (c1, m2)
      else
        match findPendingInterrupt pending with
        | some i => c1.service_interrupt m2 i
        | none => (c1, m2)).1.registers.af % 16 = 0) := by
  split
  · exact h
  split
  · exact h
  split
  · exact service_interrupt_af _ _ _ h
  · exact h

/-- `handle_interrupts` preserves the invariant. -/
theorem handle_interrupts_af (c : Cpu) (m : Memory)
    (h : c.registers.af % 16 = 0) :
    (Cpu.handle_interrupts c m).1.registers.af % 16 = 0 := by
  simp only [Cpu.handle_interrupts]
  split
  · exact h
  · split
    · exact hi_tail_af _ _ _ h
    · exact hi_tail_af _ _ _ h

/-- One frame-loop `step` transition preserves the invariant. -/
theorem step_state_af (s : Cpu × Memory) (h : s.1.registers.af % 16 = 0) :
    (stepState s).1.registers.af % 16 = 0 := by
  simp only [stepState]
  exact step_af _ _ h

/-- One frame-loop `handle_interrupts` transition preserves the invariant. -/
theorem interrupt_state_af (s : Cpu × Memory) (h : s.1.registers.af % 16 = 0) :
    (interruptState s).1.registers.af % 16 = 0 := by
  simp only [interruptState]
  exact handle_interrupts_af _ _ h

/-- C9: in every reachable CPU state the low nibble of the F register is
zero (every write to F or AF masks the low four bits away, and the
post-boot AF value 0x01B0 already satisfies it), so a `read_r8` of F and a
`read_r16` of AF always return values with low nibble 0. -/
theorem c9_f_low_nibble_always_zero (s : Cpu × Memory) (hr : Reachable s) :
    s.1.registers.read_r8 Reg8.F &&& 0x0F = 0 ∧
    s.1.registers.read_r16 Reg16.AF &&& 0x0F = 0 := by
  have key : s.1.registers.af % 16 = 0 := by
    induction hr with
    | init => decide
    | step _ ih => exact step_state_af _ ih
    | interrupts _ ih => exact interrupt_state_af _ ih
  constructor
  · show s.1.registers.af &&& 0xFF &&& 0x0F = 0
    have e : (0xFF : Nat) &&& 0x0F = 0x0F := by decide
    rw [Nat.land_assoc, e, and15_eq_mod]
    exact key
  · show s.1.registers.af &&& 0x0F = 0
    rw [and15_eq_mod]
    exact key

/-- Witness for C9 at the concrete post-boot state. -/
theorem c9_low_nibble_witness :
    (initCpu, initMem).1.registers.read_r8 Reg8.F &&& 0x0F = 0 ∧
    (initCpu, initMem).1.registers.read_r16 Reg16.AF &&& 0x0F = 0 :=
  c9_f_low_nibble_always_zero (initCpu, initMem) Reachable.init
